import Mathlib

/-!
Shallow embedding of the image-forensics analysis engine (byte sniffer,
compression analyzers, pixel consistency engine, error-level analysis,
social-reupload heuristic and the orchestration pipeline), translated from
the TypeScript sources (`utils`, `fileChecks`, `types`, `metadataChecks`,
`compressionChecks`, `pixelChecks`, `elaCheck`, `socialMediaHint`,
`pipeline`).

Modelling conventions:
* JavaScript numbers are modelled as exact rationals (`ℚ`); decimal
  literals such as `0.299` denote the exact rational the source text shows.
* `Math.sqrt` is an explicit parameter `msqrt : ℚ → ℚ` of every function
  whose source calls it (directly or through `standardDeviation`), so that
  theorems quantify over the square-root primitive.
* Byte buffers (`ArrayBuffer` viewed through `Uint8Array`) are `List Nat`;
  an out-of-range read yields `none`, mirroring JavaScript `undefined`
  (which compares unequal to every byte value).
* Pixel rasters (`ImageData`) carry their dimensions and a total function
  from byte index to stored byte, mirroring a `Uint8ClampedArray` of size
  `4 * width * height`.
* `Number.prototype.toFixed` and number-to-string conversion are modelled
  by the deterministic formatter `fmtFixed`; no claim depends on the exact
  digits, only on determinism.
* The overlay colour-mapping function (`grayscaleToHeatmap` in the source)
  is an explicit parameter `hm` of the checks that emit heatmaps, so that
  the colour map can be replaced in two-run statements; the source colour
  map itself is also defined (`grayscaleToHeatmap`).
-/

namespace Forensics

/-- `CheckStatus` from `types.ts`: `'ok' | 'warn' | 'fail' | 'info'`. -/
inductive CheckStatus where
  | ok
  | warn
  | fail
  | info
deriving DecidableEq, Repr

/-- A scalar detail value: `string | number | boolean | null` in
`CheckResult.details` (`types.ts`).  Numbers are exact rationals. -/
inductive DetailVal where
  | str (s : String)
  | num (q : ℚ)
  | bool (b : Bool)
  | null
deriving DecidableEq, Repr

/-- `Region` from `types.ts`: a rectangle in source-pixel coordinates with
an optional label. -/
structure Region where
  x : Nat
  y : Nat
  width : Nat
  height : Nat
  label : Option String := none
deriving DecidableEq, Repr

/-- A decoded RGBA raster (`ImageData`): `data j` is the byte stored at
index `j` of the backing `Uint8ClampedArray` (size `4 * width * height`). -/
structure ImageData where
  width : Nat
  height : Nat
  data : Nat → Nat

/-- `CheckResult` from `types.ts`.  `details` is an insertion-ordered
association list, matching the insertion-ordered string-keyed record of the
source. -/
structure CheckResult where
  id : String
  name : String
  status : CheckStatus
  summary : String
  details : List (String × DetailVal)
  confidence : ℚ
  notes : String
  overlay : Option ImageData := none
  regions : Option (List Region) := none

/-- `ExifData` from `types.ts`: the known optional tags plus the open
extension fields (modelled by their key names only; the checks read the
named tags and `Object.keys(exif).length`). -/
structure ExifData where
  make : Option String := none
  model : Option String := none
  software : Option String := none
  dateTime : Option String := none
  dateTimeOriginal : Option String := none
  gpsLatitude : Option ℚ := none
  gpsLongitude : Option ℚ := none
  exposureTime : Option ℚ := none
  fNumber : Option ℚ := none
  iso : Option Nat := none
  extraKeys : List String := []

/-- The number of enumerable keys of the EXIF record
(`Object.keys(exif).length`). -/
def ExifData.keyCount (e : ExifData) : Nat :=
  (if e.make.isSome then 1 else 0) + (if e.model.isSome then 1 else 0) +
  (if e.software.isSome then 1 else 0) + (if e.dateTime.isSome then 1 else 0) +
  (if e.dateTimeOriginal.isSome then 1 else 0) +
  (if e.gpsLatitude.isSome then 1 else 0) + (if e.gpsLongitude.isSome then 1 else 0) +
  (if e.exposureTime.isSome then 1 else 0) + (if e.fNumber.isSome then 1 else 0) +
  (if e.iso.isSome then 1 else 0) + e.extraKeys.length

/-- `ImageFile` from `types.ts`: the per-run snapshot handed to every
check.  `fileName`, `mimeType` and `fileSize` model `file.name`,
`file.type` and `file.size`; `bytes` models the `ArrayBuffer`; the canvas
handles are not needed by the embedded computations (the external
re-encoder is passed separately where used). -/
structure ImageFile where
  fileName : String
  mimeType : String
  fileSize : Nat
  width : Nat
  height : Nat
  imageData : ImageData
  bytes : List Nat

/-- Overall report verdict: `'clean' | 'review' | 'suspicious'`. -/
inductive Verdict where
  | clean
  | review
  | suspicious
deriving DecidableEq, Repr

/-- The status counts of a report (`ForensicReport.summary`). -/
structure ReportSummary where
  okCount : Nat
  warnCount : Nat
  failCount : Nat
  infoCount : Nat
deriving DecidableEq, Repr

/-- `ForensicReport` from `types.ts` (dimensions flattened). -/
structure ForensicReport where
  filename : String
  fileSize : Nat
  width : Nat
  height : Nat
  mimeType : String
  timestamp : String
  checks : List CheckResult
  overallStatus : Verdict
  summary : ReportSummary

/-! ### Number helpers (JavaScript semantics over `ℚ`) -/

/-- `Math.round`: round half toward positive infinity. -/
def jsRound (q : ℚ) : Int := ⌊q + 1 / 2⌋

/-- Deterministic model of `Number.prototype.toFixed d` (the exact decimal
digit string of the IEEE double is abstracted; determinism is all any
claim uses). -/
def fmtFixed (d : Nat) (q : ℚ) : String :=
  toString (⌊q * (10 : ℚ) ^ d + 1 / 2⌋ : Int) ++ "e" ++ toString d

/-- `Math.max(0, Math.min(255, _))` rounding used when a number is stored
into a `Uint8ClampedArray` (half-to-even tie-breaking abstracted to
half-up). -/
def clampByte (q : ℚ) : Nat := (max 0 (min 255 (jsRound q))).toNat

/-- 32-bit signed wrap-around (`| 0` in JavaScript). -/
def toInt32 (n : Int) : Int := (n + 2 ^ 31) % 2 ^ 32 - 2 ^ 31

/-- `parseInt` restricted to the strings this code feeds it (a digit run
optionally followed by junk such as `%`); `NaN` outcomes are folded to
`none`, which the downstream consumer (`checkSocialMediaHint`) treats
identically to a missing value, since `NaN < q` is false for every `q`. -/
def jsParseIntOpt (s : String) : Option Int :=
  let digits := s.takeWhile Char.isDigit
  if digits.isEmpty then none else some (digits.toNat!)

/-! ### `utils.ts`: byte sniffing -/

/-- `bytes[i] === v` on a `Uint8Array` (out-of-range reads `undefined`,
which compares unequal to every byte). -/
def byteIs (bs : List Nat) (i v : Nat) : Bool := bs[i]? == some v

/-- `detectFileType` (`utils.ts`): magic-byte format detection over the
fixed signature table. -/
def detectFileType (bs : List Nat) : Option String :=
  if byteIs bs 0 0xFF && byteIs bs 1 0xD8 && byteIs bs 2 0xFF then
    some "image/jpeg"
  else if byteIs bs 0 0x89 && byteIs bs 1 0x50 && byteIs bs 2 0x4E && byteIs bs 3 0x47 then
    some "image/png"
  else if byteIs bs 0 0x47 && byteIs bs 1 0x49 && byteIs bs 2 0x46 && byteIs bs 3 0x38 then
    some "image/gif"
  else if byteIs bs 0 0x52 && byteIs bs 1 0x49 && byteIs bs 2 0x46 && byteIs bs 3 0x46 then
    if byteIs bs 8 0x57 && byteIs bs 9 0x45 && byteIs bs 10 0x42 && byteIs bs 11 0x50 then
      some "image/webp"
    else none
  else none

/-- `isAnimatedGif` (`utils.ts`): more than one Graphic Control Extension
marker `0x21 0xF9`. -/
def isAnimatedGif (bs : List Nat) : Bool :=
  2 ≤ (List.range (bs.length - 3)).countP (fun i => byteIs bs i 0x21 && byteIs bs (i + 1) 0xF9)

/-- `isAnimatedWebP` (`utils.ts`): presence of an `ANIM` chunk tag. -/
def isAnimatedWebP (bs : List Nat) : Bool :=
  (List.range (bs.length - 4)).any (fun i =>
    byteIs bs i 0x41 && byteIs bs (i + 1) 0x4E && byteIs bs (i + 2) 0x49 && byteIs bs (i + 3) 0x4D)

/-! ### Spec-side signature table (§4.1 of the spec)

These definitions follow the spec's words (the four full signatures) and
are compared against `detectFileType`, which was translated from the
source. -/

/-- Does the buffer hold exactly the bytes `sig` starting at offset
`off`? -/
def sigMatchesAt (bs : List Nat) : List Nat → Nat → Bool
  | [], _ => true
  | v :: rest, off => byteIs bs off v && sigMatchesAt bs rest (off + 1)

/-- The JPEG signature `FF D8 FF` (spec §4.1). -/
def jpegSig : List Nat := [0xFF, 0xD8, 0xFF]

/-- The full 8-byte PNG signature (spec §4.1). -/
def pngSig8 : List Nat := [0x89, 0x50, 0x4E, 0x47, 0x0D, 0x0A, 0x1A, 0x0A]

/-- The first four bytes of the PNG signature (what the code compares). -/
def pngSig4 : List Nat := [0x89, 0x50, 0x4E, 0x47]

/-- The GIF signature `GIF8` (spec §4.1). -/
def gifSig : List Nat := [0x47, 0x49, 0x46, 0x38]

/-- The WebP container prefix `RIFF` (spec §4.1). -/
def riffSig : List Nat := [0x52, 0x49, 0x46, 0x46]

/-- The `WEBP` tag expected at byte offset 8 (spec §4.1). -/
def webpTag : List Nat := [0x57, 0x45, 0x42, 0x50]

/-! ### `utils.ts`: numeric and raster primitives -/

/-- `mean` (`utils.ts`). -/
def mean (values : List ℚ) : ℚ :=
  if values.length = 0 then 0 else values.sum / values.length

/-- `standardDeviation` (`utils.ts`): the square root of the mean squared
deviation; the square-root primitive is the explicit parameter `msqrt`. -/
def standardDeviation (msqrt : ℚ → ℚ) (values : List ℚ) : ℚ :=
  if values.length = 0 then 0
  else
    let m := values.sum / values.length
    msqrt ((values.map (fun v => (v - m) ^ 2)).sum / values.length)

/-- The grayscale conversion `0.299 R + 0.587 G + 0.114 B` applied at
pixel `i` of an RGBA byte array (the loop body repeated throughout the
source). -/
def grayAt (d : Nat → Nat) (i : Nat) : ℚ :=
  0.299 * (d (i * 4) : ℚ) + 0.587 * (d (i * 4 + 1) : ℚ) + 0.114 * (d (i * 4 + 2) : ℚ)

/-- `applyLaplacian` (`utils.ts`): absolute 4-neighbour Laplacian of the
grayscale image; border entries of the result array stay `0`. -/
def applyLaplacian (img : ImageData) : Nat → ℚ := fun idx =>
  let w := img.width
  let g := grayAt img.data
  let x := idx % w
  let y := idx / w
  if 1 ≤ x ∧ x < w - 1 ∧ 1 ≤ y ∧ y < img.height - 1 then
    |(-4 * g idx + g (idx - 1) + g (idx + 1) + g (idx - w) + g (idx + w))|
  else 0

/-- Storing a (floored) number into a `Uint8ClampedArray` slot. -/
def storeByte (n : Int) : Nat := (max 0 (min 255 n)).toNat

/-- The type of an overlay colour-mapping function: per-pixel values,
width, height, normalize flag. -/
abbrev HeatmapFn := (Nat → ℚ) → Nat → Nat → Bool → ImageData

/-- `grayscaleToHeatmap` (`utils.ts`): the blue-cyan-green-yellow-red
colour map with intensity-scaled alpha; this is the colour-mapping
function the pipeline actually uses. -/
def grayscaleToHeatmap : HeatmapFn := fun values width height normalize =>
  let n := width * height
  let maxVal :=
    if normalize then
      (List.range n).foldl (fun m i => if values i > m then values i else m) 1
    else 1
  { width := width
    height := height
    data := fun j =>
      let i := j / 4
      if i < n then
        let normalized := min (values i / maxVal) 1
        let c := j % 4
        if c = 3 then storeByte (⌊normalized * 200⌋ + 55)
        else if normalized < 0.25 then
          if c = 0 then 0
          else if c = 1 then storeByte ⌊normalized * 4 * 255⌋
          else 255
        else if normalized < 0.5 then
          if c = 0 then 0
          else if c = 1 then 255
          else storeByte ⌊(1 - (normalized - 0.25) * 4) * 255⌋
        else if normalized < 0.75 then
          if c = 0 then storeByte ⌊(normalized - 0.5) * 4 * 255⌋
          else if c = 1 then 255
          else 0
        else
          if c = 0 then 255
          else if c = 1 then storeByte ⌊(1 - (normalized - 0.75) * 4) * 255⌋
          else 0
      else 0 }

/-- `hashBlock` (`utils.ts`): quantized-luminance rolling hash of a
`blockSize × blockSize` tile, over 32-bit signed integers (`| 0`).  The
source returns `hash.toString(16)`, which is injective on 32-bit values,
so blocks are grouped here by the integer itself. -/
def hashBlock (img : ImageData) (x y blockSize : Nat) : Int :=
  (List.range blockSize).foldl (fun hash dy =>
    (List.range blockSize).foldl (fun hash dx =>
      let idx := ((y + dy) * img.width + (x + dx)) * 4
      let gray := (⌊0.299 * (img.data idx : ℚ) + 0.587 * (img.data (idx + 1) : ℚ) +
        0.114 * (img.data (idx + 2) : ℚ)⌋ : Int).toNat
      let quantized := gray / 16
      toInt32 (toInt32 (hash * 32) - hash + quantized)) hash) 0

/-- An exact-on-perfect-squares computable square-root approximation on
`ℚ`, used to instantiate the `msqrt` parameter in concrete witnesses:
whenever `q = (a/b)^2` with `a b : Nat`, `ratSqrt q = a/b` exactly. -/
def ratSqrt (q : ℚ) : ℚ := (Nat.sqrt (q.num.toNat * q.den) : ℚ) / (q.den : ℚ)

/-! ### `compressionChecks.ts` -/

/-- One iteration of the DQT scan loop of `estimateJpegQuality`
(`compressionChecks.ts`): `some` means `return`, `none` means the loop
continues with the next offset.  `(bytes[i+2] << 8) | bytes[i+3]` reads
out-of-range bytes as `undefined`, which the bit operators coerce to `0`. -/
def dqtStep (bs : List Nat) (i : Nat) : Option Int :=
  if byteIs bs i 0xFF && byteIs bs (i + 1) 0xDB then
    let len := ((bs.getD (i + 2) 0) <<< 8) ||| bs.getD (i + 3) 0
    if 67 ≤ len then
      (bs[i + 5]?).bind (fun q0 =>
        if q0 = 0 then none
        else
          let quality : Int :=
            if q0 < 2 then 98
            else if q0 < 10 then jsRound (100 - (q0 : ℚ) * 2)
            else if q0 < 50 then jsRound (5000 / (q0 : ℚ))
            else jsRound (200 - (q0 : ℚ) * 2)
          some (max 1 (min 100 quality)))
    else none
  else none

/-- `estimateJpegQuality` (`compressionChecks.ts`): scan offsets
`0 ≤ i < bytes.length - 70` for a DQT marker and return the first
successful estimate, clamped to `[1, 100]`. -/
def estimateJpegQuality (bs : List Nat) : Option Int :=
  (List.range (bs.length - 70)).findSome? (dqtStep bs)

/-- `getQualityLevel` (`compressionChecks.ts`). -/
def getQualityLevel (quality : Int) : String :=
  if 90 ≤ quality then "High"
  else if 75 ≤ quality then "Good"
  else if 50 ≤ quality then "Medium"
  else "Low"

/-- `checkJpegQuality` (`compressionChecks.ts`): only for sniffed JPEG;
`null` (here `none`) for other formats. -/
def checkJpegQuality (f : ImageFile) : Option CheckResult :=
  if detectFileType f.bytes ≠ some "image/jpeg" then none
  else
    match estimateJpegQuality f.bytes with
    | none => some
      { id := "jpeg-quality"
        name := "JPEG Quality Analysis"
        status := .info
        summary := "Could not determine JPEG quality"
        details := [("Format", .str "JPEG"), ("Quality Estimate", .str "Unknown")]
        confidence := 0.3
        notes := "Unable to extract quantization tables from this JPEG file." }
    | some qualityEstimate => some
      { id := "jpeg-quality"
        name := "JPEG Quality Analysis"
        status := if qualityEstimate < 50 then .warn else .info
        summary := "Estimated quality: " ++ toString qualityEstimate ++ "%"
        details :=
          [("Format", .str "JPEG"),
           ("Quality Estimate", .str (toString qualityEstimate ++ "%")),
           ("Quality Level", .str (getQualityLevel qualityEstimate))]
        confidence := 0.6
        notes :=
          if qualityEstimate < 50 then
            "Low quality JPEG. Heavy compression may obscure forensic analysis and suggests multiple resaves."
          else if qualityEstimate < 75 then
            "Medium quality JPEG. Some compression artifacts may be present."
          else if qualityEstimate < 90 then
            "Good quality JPEG. Minimal compression artifacts expected."
          else
            "High quality JPEG. Very little compression artifact expected." }

/-- `analyzeBlockBoundaries` (`compressionChecks.ts`): boundary-versus-
interior gradient ratio mapped to a strength in `[0, 1]`.  The interior
sample condition `x % 8 = 4 ∧ y % 8 = 4` sits in an `else if`, but it
already excludes the boundary condition, so no extra guard is needed. -/
def analyzeBlockBoundaries (img : ImageData) : ℚ :=
  let w := img.width
  let h := img.height
  if w < 16 ∨ h < 16 then 0
  else
    let g := grayAt img.data
    let gradient := fun (idx : Nat) => |g idx - g (idx - 1)| + |g idx - g (idx - w)|
    let boundaryGradients :=
      (List.range' 1 (h - 2)).flatMap (fun y =>
        (List.range' 1 (w - 2)).filterMap (fun x =>
          if x % 8 = 0 ∨ y % 8 = 0 then some (gradient (y * w + x)) else none))
    let innerGradients :=
      (List.range' 1 (h - 2)).flatMap (fun y =>
        (List.range' 1 (w - 2)).filterMap (fun x =>
          if ¬(x % 8 = 0 ∨ y % 8 = 0) ∧ x % 8 = 4 ∧ y % 8 = 4 then
            some (gradient (y * w + x))
          else none))
    if boundaryGradients.length = 0 ∨ innerGradients.length = 0 then 0
    else
      let boundaryMean := mean boundaryGradients
      let innerMean := mean innerGradients
      let ratio := if 0 < innerMean then boundaryMean / innerMean else 0
      min 1 (max 0 ((ratio - 0.8) / 1.2))

/-- `checkDoubleCompression` (`compressionChecks.ts`): only for sniffed
JPEG; `null` (here `none`) otherwise. -/
def checkDoubleCompression (f : ImageFile) : Option CheckResult :=
  if detectFileType f.bytes ≠ some "image/jpeg" then none
  else
    let boundaryStrength := analyzeBlockBoundaries f.imageData
    some
      { id := "double-compression"
        name := "Compression Artifacts (Experimental)"
        status := if boundaryStrength > 0.7 then .warn else .info
        summary :=
          if boundaryStrength > 0.7 then "Strong block boundary artifacts detected"
          else if boundaryStrength > 0.4 then "Moderate block boundaries present"
          else "Block boundaries within normal range"
        details :=
          [("Block Boundary Strength", .str (fmtFixed 1 (boundaryStrength * 100) ++ "%")),
           ("Analysis Type", .str "8x8 DCT Block Analysis")]
        confidence := 0.4
        notes :=
          if boundaryStrength > 0.7 then
            "EXPERIMENTAL: Pronounced 8x8 block boundaries may indicate double JPEG compression or heavy editing. Use with caution."
          else if boundaryStrength > 0.4 then
            "Some JPEG block boundaries are visible, which is normal for JPEG compression. May indicate moderate compression quality."
          else
            "JPEG block boundaries are minimal, suggesting either high quality compression or non-JPEG source." }

/-- The result record of `analyzeUniformity`. -/
structure UniformityAnalysis where
  uniformRatio : ℚ
  uniformMap : List (List ℚ)

/-- `analyzeUniformity` (`compressionChecks.ts`): per-16x16-block
luminance standard deviation; a block is uniform when its standard
deviation is below 3. -/
def analyzeUniformity (msqrt : ℚ → ℚ) (img : ImageData) : UniformityAnalysis :=
  let w := img.width
  let blockSize := 16
  let blocksX := w / blockSize
  let blocksY := img.height / blockSize
  if blocksX < 2 ∨ blocksY < 2 then ⟨0, []⟩
  else
    let blockValues := fun (bY bX : Nat) =>
      (List.range blockSize).flatMap (fun dy =>
        (List.range blockSize).map (fun dx =>
          grayAt img.data ((bY * blockSize + dy) * w + (bX * blockSize + dx))))
    let variance := fun (bY bX : Nat) => standardDeviation msqrt (blockValues bY bX)
    let uniformMap :=
      (List.range blocksY).map (fun bY =>
        (List.range blocksX).map (fun bX => max 0 (1 - variance bY bX / 10)))
    let uniformBlocks :=
      ((List.range blocksY).flatMap (fun bY =>
        (List.range blocksX).map (fun bX => variance bY bX))).countP (fun v => v < 3)
    let totalBlocks := blocksY * blocksX
    ⟨if 0 < totalBlocks then (uniformBlocks : ℚ) / totalBlocks else 0, uniformMap⟩

/-- `generateUniformAreasOverlay` (`compressionChecks.ts`): per-block
colour overlay, blue (low uniformity) to red (high), alpha scaled by the
score; pixels outside the analysed blocks stay zero-initialised. -/
def generateUniformAreasOverlay (img : ImageData) (uniformMap : List (List ℚ)) : ImageData :=
  let w := img.width
  { width := w
    height := img.height
    data := fun j =>
      let i := j / 4
      if i < w * img.height then
        let x := i % w
        let y := i / w
        match (uniformMap[y / 16]?).bind (fun row => row[x / 16]?) with
        | some score =>
          let c := j % 4
          if c = 0 then storeByte ⌊score * 255⌋
          else if c = 1 then storeByte ⌊(1 - score) * 128⌋
          else if c = 2 then storeByte ⌊(1 - score) * 255⌋
          else storeByte ⌊score * 200⌋
        | none => 0
      else 0 }

/-- `checkUniformAreas` (`compressionChecks.ts`).  The source initializes
`status` to `'info'` and only the `uniformRatio > 0.3` branch overwrites
it with `'warn'`; the other two branches set only summary and notes, so
the status is never `'ok'`. -/
def checkUniformAreas (msqrt : ℚ → ℚ) (f : ImageFile) : CheckResult :=
  let analysis := analyzeUniformity msqrt f.imageData
  let overlay := generateUniformAreasOverlay f.imageData analysis.uniformMap
  { id := "uniform-areas"
    name := "Uniform Area Analysis"
    status := if analysis.uniformRatio > 0.3 then .warn else .info
    summary :=
      if analysis.uniformRatio > 0.3 then
        "Large uniform areas detected (" ++ fmtFixed 0 (analysis.uniformRatio * 100) ++ "%)"
      else if analysis.uniformRatio > 0.1 then
        "Some uniform areas present (" ++ fmtFixed 0 (analysis.uniformRatio * 100) ++ "%)"
      else "Natural texture variation throughout"
    details :=
      [("Uniform Ratio", .str (fmtFixed 1 (analysis.uniformRatio * 100) ++ "%")),
       ("Analysis", .str "Texture variance per block")]
    confidence := 0.5
    notes :=
      if analysis.uniformRatio > 0.3 then
        "Significant portions of the image have very uniform color/texture. This can indicate editing (cloning, filling) but is also common in images with solid backgrounds, sky, or simple graphics."
      else if analysis.uniformRatio > 0.1 then
        "Some uniform regions detected. This is often normal, especially in images with simple backgrounds."
      else
        "The image shows typical texture variation without suspicious uniform regions."
    overlay := some overlay }

/-- `runCompressionChecks` (`compressionChecks.ts`). -/
def runCompressionChecks (msqrt : ℚ → ℚ) (f : ImageFile) : List CheckResult :=
  (checkJpegQuality f).toList ++ (checkDoubleCompression f).toList ++ [checkUniformAreas msqrt f]

/-- Spec-side view of one DQT scan hit (§4.4 of the spec): a `FF DB`
marker at offset `i` whose declared segment length is at least 67 and
whose DC quantization coefficient (the byte after marker, length and
precision/table-id) is defined and non-zero. -/
def dqtFoundAt (bs : List Nat) (i : Nat) : Prop :=
  bs[i]? = some 0xFF ∧ bs[i + 1]? = some 0xDB ∧
  67 ≤ (((bs.getD (i + 2) 0) <<< 8) ||| bs.getD (i + 3) 0) ∧
  ∃ q0, bs[i + 5]? = some q0 ∧ q0 ≠ 0

/-- The spec's piecewise inverse quality function of the DC quantization
coefficient (§4.4): `< 2 ⇒ 98`, `< 10 ⇒ 100 − 2·coeff`,
`< 50 ⇒ 5000 / coeff` rounded, else `200 − 2·coeff`. -/
def specQualityOfDC (q0 : Nat) : Int :=
  if q0 < 2 then 98
  else if q0 < 10 then jsRound (100 - (q0 : ℚ) * 2)
  else if q0 < 50 then jsRound (5000 / (q0 : ℚ))
  else jsRound (200 - (q0 : ℚ) * 2)

/-- A 71-byte buffer holding one DQT marker (`FF DB`, declared segment
length `00 43 = 67`, precision/table-id byte, DC coefficient 16), used as
a concrete witness input. -/
def dqtSampleBuffer : List Nat :=
  [0xFF, 0xDB, 0x00, 0x43, 0x00, 16,
   0, 0, 0, 0, 0, 0, 0, 0, 0, 0, 0, 0, 0, 0, 0, 0, 0, 0, 0, 0,
   0, 0, 0, 0, 0, 0, 0, 0, 0, 0, 0, 0, 0, 0, 0, 0, 0, 0, 0, 0,
   0, 0, 0, 0, 0, 0, 0, 0, 0, 0, 0, 0, 0, 0, 0, 0, 0, 0, 0, 0,
   0, 0, 0, 0, 0]

/-! ### `pixelChecks.ts` -/

/-- The skip result of `checkNoiseConsistency` when fewer than 3x3
analysis blocks fit. -/
def noiseSmallResult : CheckResult :=
  { id := "noise-consistency"
    name := "Noise Consistency Analysis"
    status := .info
    summary := "Image too small for reliable noise analysis"
    details := [("Analysis", .str "Skipped - insufficient resolution")]
    confidence := 0.2
    notes := "The image is too small to perform meaningful noise consistency analysis." }

/-- The main branch of `checkNoiseConsistency` (`pixelChecks.ts`):
Laplacian texture energy per 32x32 block, z-score outliers, heatmap
overlay via the colour-mapping parameter `hm`. -/
def checkNoiseConsistencyMain (msqrt : ℚ → ℚ) (hm : HeatmapFn) (f : ImageFile) : CheckResult :=
  let w := f.width
  let laplacian := applyLaplacian f.imageData
  let blockSize := 32
  let blocksX := w / blockSize
  let blocksY := f.height / blockSize
  let blockEnergy := fun (bY bX : Nat) =>
      let cells := (List.range blockSize).flatMap (fun dy =>
        (List.range blockSize).filterMap (fun dx =>
          let idx := (bY * blockSize + dy) * w + (bX * blockSize + dx)
          if idx < f.imageData.width * f.imageData.height then some (laplacian idx)
          else none))
      if 0 < cells.length then cells.sum / cells.length else 0
    let blockEnergies := (List.range blocksY).flatMap (fun bY =>
      (List.range blocksX).map (fun bX => blockEnergy bY bX))
    let meanEnergy := mean blockEnergies
    let stdEnergy := standardDeviation msqrt blockEnergies
    let zScore := fun (e : ℚ) => if 0 < stdEnergy then |e - meanEnergy| / stdEnergy else 0
    let outlierBlocks : List Region := (List.range blocksY).flatMap (fun bY =>
      (List.range blocksX).filterMap (fun bX =>
        let z := zScore (blockEnergy bY bX)
        if z > 2.5 then
          some { x := bX * blockSize, y := bY * blockSize, width := blockSize,
                 height := blockSize, label := some ("Z-score: " ++ fmtFixed 1 z) }
        else none))
    let overlay := hm laplacian w f.height true
    let outlierRatio := (outlierBlocks.length : ℚ) / (blockEnergies.length : ℚ)
    { id := "noise-consistency"
      name := "Noise Consistency Analysis"
      status :=
        if outlierRatio > 0.15 then .warn
        else if outlierRatio > 0.05 then .info
        else .ok
      summary :=
        if outlierRatio > 0.15 then
          "Significant noise inconsistencies detected (" ++ toString outlierBlocks.length ++ " regions)"
        else if outlierRatio > 0.05 then
          "Some noise variation detected (" ++ toString outlierBlocks.length ++ " regions)"
        else "Noise characteristics appear consistent"
      details :=
        [("Blocks Analyzed", .num blockEnergies.length),
         ("Outlier Blocks", .num outlierBlocks.length),
         ("Outlier Ratio", .str (fmtFixed 1 (outlierRatio * 100) ++ "%")),
         ("Mean Energy", .str (fmtFixed 2 meanEnergy)),
         ("Std Dev", .str (fmtFixed 2 stdEnergy))]
      confidence := 0.6
      notes :=
        if outlierRatio > 0.15 then
          "Multiple regions show significantly different noise/texture characteristics. This could indicate editing, compositing, or different image sources."
        else if outlierRatio > 0.05 then
          "A few regions show different noise characteristics. This is often normal and can occur at natural boundaries in images."
        else
          "The image shows relatively uniform noise characteristics throughout, which is expected for unedited photos."
      overlay := some overlay
      regions := some outlierBlocks }

/-- `checkNoiseConsistency` (`pixelChecks.ts`): the guard
`blocksX < 3 ∨ blocksY < 3` (with block size 32) selects the skip result,
else the main analysis runs. -/
def checkNoiseConsistency (msqrt : ℚ → ℚ) (hm : HeatmapFn) (f : ImageFile) : CheckResult :=
  if f.width / 32 < 3 ∨ f.height / 32 < 3 then noiseSmallResult
  else checkNoiseConsistencyMain msqrt hm f

/-- The Sobel gradient-magnitude map of `checkEdgeInconsistency`
(`pixelChecks.ts`): zero on the border, `sqrt (gx^2 + gy^2)` inside. -/
def edgeMapOf (msqrt : ℚ → ℚ) (f : ImageFile) : Nat → ℚ := fun idx =>
  let w := f.width
  let g := grayAt f.imageData.data
  let x := idx % w
  let y := idx / w
  if 1 ≤ x ∧ x < w - 1 ∧ 1 ≤ y ∧ y < f.height - 1 then
    let gx := -g (idx - w - 1) + g (idx - w + 1) +
      -2 * g (idx - 1) + 2 * g (idx + 1) +
      -g (idx + w - 1) + g (idx + w + 1)
    let gy := -g (idx - w - 1) - 2 * g (idx - w) - g (idx - w + 1) +
      g (idx + w - 1) + 2 * g (idx + w) + g (idx + w + 1)
    msqrt (gx * gx + gy * gy)
  else 0

/-- Mean of the strictly-positive entries of the edge map (0 when there
are none), as in `checkEdgeInconsistency`. -/
def edgePositiveMean (msqrt : ℚ → ℚ) (f : ImageFile) : ℚ :=
  let em := edgeMapOf msqrt f
  let pos := (List.range (f.width * f.height)).filterMap (fun i =>
    if em i > 0 then some (em i) else none)
  if 0 < pos.length then pos.sum / pos.length else 0

/-- Standard deviation of the strictly-positive entries of the edge map
around `edgePositiveMean` (0 when there are none). -/
def edgePositiveStd (msqrt : ℚ → ℚ) (f : ImageFile) : ℚ :=
  let em := edgeMapOf msqrt f
  let m := edgePositiveMean msqrt f
  let pos := (List.range (f.width * f.height)).filterMap (fun i =>
    if em i > 0 then some (em i) else none)
  if 0 < pos.length then msqrt ((pos.map (fun v => (v - m) ^ 2)).sum / pos.length) else 0

/-- Share of pixels whose edge magnitude exceeds
`mean + 3 * standard deviation`, over the whole pixel count
(`strongEdgeRatio` in `checkEdgeInconsistency`). -/
def strongEdgeRatio (msqrt : ℚ → ℚ) (f : ImageFile) : ℚ :=
  let em := edgeMapOf msqrt f
  let strongEdgeThreshold := edgePositiveMean msqrt f + 3 * edgePositiveStd msqrt f
  let strongEdgeCount := (List.range (f.width * f.height)).countP (fun i =>
    em i > strongEdgeThreshold)
  (strongEdgeCount : ℚ) / ((f.width : ℚ) * (f.height : ℚ))

/-- `checkEdgeInconsistency` (`pixelChecks.ts`): the status is `'info'`
above the 2% strong-edge share and `'ok'` otherwise — the source has no
warn tier for this check. -/
def checkEdgeInconsistency (msqrt : ℚ → ℚ) (hm : HeatmapFn) (f : ImageFile) : CheckResult :=
  { id := "edge-consistency"
    name := "Edge Analysis"
    status := if strongEdgeRatio msqrt f > 0.02 then .info else .ok
    summary :=
      if strongEdgeRatio msqrt f > 0.02 then "Contains sharp edges worth reviewing"
      else "Edge characteristics appear natural"
    details :=
      [("Mean Edge Strength", .str (fmtFixed 2 (edgePositiveMean msqrt f))),
       ("Strong Edge Ratio", .str (fmtFixed 2 (strongEdgeRatio msqrt f * 100) ++ "%"))]
    confidence := 0.5
    notes :=
      if strongEdgeRatio msqrt f > 0.02 then
        "The image contains notable sharp edges. Sharp edges can indicate artificial boundaries from editing, but are also common in high-contrast photos, text, or graphics."
      else "Edge distribution appears typical for a natural photograph."
    overlay := some (hm (edgeMapOf msqrt f) f.width f.height true) }

/-- `deduplicateRegions` (`pixelChecks.ts`): keep a region only when no
already-kept region is within `margin` of it on both axes. -/
def deduplicateRegions (regions : List Region) (margin : Nat) : List Region :=
  regions.foldl (fun unique region =>
    if unique.any (fun existing =>
        ((region.x : Int) - existing.x).natAbs < margin ∧
        ((region.y : Int) - existing.y).natAbs < margin) then
      unique
    else unique ++ [region]) []

/-- `hashMap.get(hash).push(pos)` over a JavaScript `Map`, modelled as an
association list in key-insertion order. -/
def bucketInsert (m : List (Int × List (Nat × Nat))) (key : Int) (pos : Nat × Nat) :
    List (Int × List (Nat × Nat)) :=
  match m with
  | [] => [(key, [pos])]
  | (k, ps) :: rest =>
    if k = key then (k, ps ++ [pos]) :: rest else (k, ps) :: bucketInsert rest key pos

/-- The skip result of `checkCloneDetection` when fewer than 4x4 sample
positions fit on either axis. -/
def cloneSmallResult : CheckResult :=
  { id := "clone-detection"
    name := "Clone Detection"
    status := .info
    summary := "Image too small for clone analysis"
    details := [("Analysis", .str "Skipped - insufficient resolution")]
    confidence := 0.2
    notes := "The image is too small to perform meaningful clone detection." }

/-- The main branch of `checkCloneDetection` (`pixelChecks.ts`):
block-hash clone search; `deepScan` selects block size 16 and stride 8
(32 and 16 otherwise). -/
def checkCloneDetectionMain (msqrt : ℚ → ℚ) (f : ImageFile) (deepScan : Bool) : CheckResult :=
  let blockSize := if deepScan then 16 else 32
  let step := if deepScan then 8 else 16
  let blocksX := (f.width - blockSize) / step
  let blocksY := (f.height - blockSize) / step
  let positions := (List.range blocksY).flatMap (fun bY =>
      (List.range blocksX).map (fun bX => (bX * step, bY * step)))
    let buckets := positions.foldl (fun m pos =>
      bucketInsert m (hashBlock f.imageData pos.1 pos.2 blockSize) pos) []
    let minDistance := blockSize * 2
    let duplicateRegions : List Region := buckets.flatMap (fun bucket =>
      let ps := bucket.2
      if ps.length > 1 then
        (List.range ps.length).flatMap (fun i =>
          (List.range ps.length).flatMap (fun j =>
            if i < j then
              let p := ps.getD i (0, 0)
              let q := ps.getD j (0, 0)
              let dx := (p.1 : ℚ) - q.1
              let dy := (p.2 : ℚ) - q.2
              let distance := msqrt (dx * dx + dy * dy)
              if distance > (minDistance : ℚ) then
                [{ x := p.1, y := p.2, width := blockSize, height := blockSize },
                 { x := q.1, y := q.2, width := blockSize, height := blockSize }]
              else []
            else []))
      else [])
    let uniqueRegions := deduplicateRegions duplicateRegions blockSize
    { id := "clone-detection"
      name := if deepScan then "Clone Detection (Deep Scan)" else "Clone Detection"
      status :=
        if uniqueRegions.length > 10 then .warn
        else if uniqueRegions.length > 0 then .info
        else .ok
      summary :=
        if uniqueRegions.length > 10 then
          "Potential cloned regions detected (" ++ toString uniqueRegions.length ++ " matches)"
        else if uniqueRegions.length > 0 then
          "Some similar regions found (" ++ toString uniqueRegions.length ++ " matches)"
        else "No obvious cloned regions detected"
      details :=
        [("Scan Type", .str (if deepScan then "Deep (slower, more thorough)" else "Quick")),
         ("Block Size", .str (toString blockSize ++ "px")),
         ("Matches Found", .num uniqueRegions.length),
         ("Blocks Analyzed", .num (blocksX * blocksY))]
      confidence := if deepScan then 0.6 else 0.4
      notes :=
        if uniqueRegions.length > 10 then
          "Multiple similar regions found that are spatially separated. This could indicate copy-paste editing. However, patterns, textures, and repeated elements in scenes can cause false positives."
        else if uniqueRegions.length > 0 then
          "A few similar regions were detected. This is often caused by natural patterns or textures in the image."
        else
          "No significantly similar regions found. This does not guarantee no cloning occurred, as sophisticated edits may not be detected."
      regions := some uniqueRegions }

/-- `checkCloneDetection` (`pixelChecks.ts`): the guard
`blocksX < 4 ∨ blocksY < 4` (with `blocksX = (width - blockSize) / step`
and the deep-scan parameters inlined) selects the skip result, else the
main analysis runs. -/
def checkCloneDetection (msqrt : ℚ → ℚ) (f : ImageFile) (deepScan : Bool) : CheckResult :=
  if (f.width - (if deepScan then 16 else 32)) / (if deepScan then 8 else 16) < 4 ∨
      (f.height - (if deepScan then 16 else 32)) / (if deepScan then 8 else 16) < 4 then
    cloneSmallResult
  else checkCloneDetectionMain msqrt f deepScan

/-- `runPixelChecks` (`pixelChecks.ts`). -/
def runPixelChecks (msqrt : ℚ → ℚ) (hm : HeatmapFn) (f : ImageFile)
    (deepCloneScan : Bool) : List CheckResult :=
  [checkNoiseConsistency msqrt hm f,
   checkEdgeInconsistency msqrt hm f,
   checkCloneDetection msqrt f deepCloneScan]

/-- `runDeepCloneScan` (`pipeline.ts`): reruns only the clone detector at
the deep setting and looks up its result by id.  The source dereferences
the lookup with a non-null assertion (`!`); the `Option` models the
partiality of `Array.prototype.find`. -/
def runDeepCloneScan (msqrt : ℚ → ℚ) (hm : HeatmapFn) (f : ImageFile) : Option CheckResult :=
  (runPixelChecks msqrt hm f true).find? (fun c => c.id == "clone-detection")

/-! ### `elaCheck.ts` -/

/-- `ELA_QUALITY` (`elaCheck.ts`). -/
def ELA_QUALITY : Nat := 90

/-- `performELA` (`elaCheck.ts`).  The external JPEG re-encode round trip
is the parameter `reenc`: `.ok` carries the re-decoded raster, `.error`
the thrown description (caught by the source's `try`/`catch`). -/
def performELA (msqrt : ℚ → ℚ) (hm : HeatmapFn) (reenc : Except String ImageData)
    (f : ImageFile) : CheckResult :=
  let fileType := detectFileType f.bytes
  if fileType ≠ some "image/jpeg" then
    { id := "ela"
      name := "Error Level Analysis"
      status := .info
      summary := "ELA not applicable (non-JPEG)"
      details :=
        [("Format", .str (fileType.getD "Unknown")),
         ("Note", .str "ELA is designed for JPEG images")]
      confidence := 0.3
      notes := "Error Level Analysis is most meaningful for JPEG images. For PNG or other formats, the analysis would not provide useful results." }
  else
    match reenc with
    | .error msg =>
      { id := "ela"
        name := "Error Level Analysis"
        status := .info
        summary := "ELA analysis failed"
        details := [("Error", .str msg)]
        confidence := 0.1
        notes := "Could not perform Error Level Analysis. This may be due to image format issues or browser limitations." }
    | .ok reencoded =>
      let w := f.width
      let h := f.height
      let n := w * h
      let diff := fun (i : Nat) =>
        let idx := i * 4
        let diffR := |(f.imageData.data idx : ℚ) - (reencoded.data idx : ℚ)|
        let diffG := |(f.imageData.data (idx + 1) : ℚ) - (reencoded.data (idx + 1) : ℚ)|
        let diffB := |(f.imageData.data (idx + 2) : ℚ) - (reencoded.data (idx + 2) : ℚ)|
        (diffR + diffG + diffB) / 3
      let maxDiff := (List.range n).foldl (fun m i => if diff i > m then diff i else m) 0
      let totalDiff := ((List.range n).map diff).sum
      let avgDiff := totalDiff / (n : ℚ)
      let variance := msqrt (((List.range n).map (fun i => (diff i - avgDiff) ^ 2)).sum / (n : ℚ))
      let scale := if maxDiff > 0 then 255 / maxDiff else 1
      let scaledDiff := fun (i : Nat) => min (diff i * scale * 2) 255
      let overlay := hm scaledDiff w h false
      { id := "ela"
        name := "Error Level Analysis"
        status := if variance > 20 then .warn else .info
        summary :=
          if variance > 20 then "ELA shows notable variation (review recommended)"
          else "ELA shows relatively uniform error levels"
        details :=
          [("Re-encode Quality", .str (toString ELA_QUALITY ++ "%")),
           ("Average Difference", .str (fmtFixed 2 avgDiff)),
           ("Max Difference", .str (fmtFixed 2 maxDiff)),
           ("Variance", .str (fmtFixed 2 variance))]
        confidence := 0.4
        notes := "IMPORTANT CAVEATS: ELA results are highly prone to false positives. Previously compressed or resaved images show varied ELA regardless of editing; social media reuploads typically produce noisy ELA results; solid colors and smooth gradients naturally show different error levels than textured areas. ELA cannot definitively prove or disprove image manipulation; use it as one data point among many, never as sole evidence."
        overlay := some overlay }

/-- `runELACheck` (`elaCheck.ts`): `performELA` returns a result on every
path, so the stage always contributes exactly one entry. -/
def runELACheck (msqrt : ℚ → ℚ) (hm : HeatmapFn) (reenc : Except String ImageData)
    (f : ImageFile) : List CheckResult :=
  [performELA msqrt hm reenc f]

/-! ### `socialMediaHint.ts` -/

/-- An entry of the platform-dimension table (`types.ts`). -/
structure DimPattern where
  width : Nat
  platform : String

/-- `SOCIAL_MEDIA_DIMENSIONS` (`types.ts`), in source order — the
first-match rule makes the order significant. -/
def SOCIAL_MEDIA_DIMENSIONS : List DimPattern :=
  [⟨2048, "Facebook/Instagram"⟩, ⟨1080, "Instagram"⟩, ⟨1200, "Twitter"⟩,
   ⟨1280, "Twitter/Telegram"⟩, ⟨1600, "Various"⟩, ⟨4096, "Twitter 4K"⟩]

/-- The dimension-signal loop of `checkSocialMediaHint`: first exact match
gives 2 points, else first within-10px match gives 1 point, both with
`break`. -/
def dimensionSignal (maxDim : Nat) : List DimPattern → Option (String × Nat)
  | [] => none
  | p :: ps =>
    if maxDim = p.width then
      some ("Max dimension " ++ toString p.width ++ "px (common for " ++ p.platform ++ ")", 2)
    else if ((maxDim : Int) - p.width).natAbs < 10 then
      some ("Max dimension ~" ++ toString p.width ++ "px (close to " ++ p.platform ++ " limit)", 1)
    else dimensionSignal maxDim ps

/-- Points from the missing-EXIF signal (check 1 of
`checkSocialMediaHint`). -/
def socialExifScore (exifData : Option ExifData) : Nat :=
  match exifData with
  | none => 2
  | some e => if e.keyCount = 0 then 2 else 0

/-- Points from the platform-dimension signal (check 2). -/
def socialDimScore (maxDim : Nat) : Nat :=
  (dimensionSignal maxDim SOCIAL_MEDIA_DIMENSIONS).elim 0 Prod.snd

/-- Points from the JPEG-quality signal (check 3): below 85 gives one
point and below 70 one more, only for sniffed JPEG with an available
quality value. -/
def socialQualityScore (fileType : Option String) (jpegQuality : Option Int) : Nat :=
  match jpegQuality with
  | none => 0
  | some q =>
    if fileType = some "image/jpeg" then
      (if q < 85 then 1 else 0) + (if q < 70 then 1 else 0)
    else 0

/-- Points from the three independent aspect-ratio signals (check 4). -/
def socialAspectScore (aspectRatio : ℚ) : Nat :=
  (if |aspectRatio - 1| < 0.01 then 1 else 0) +
  (if |aspectRatio - 0.8| < 0.02 ∨ |aspectRatio - 1.25| < 0.02 then 1 else 0) +
  (if |aspectRatio - 1.778| < 0.02 ∨ |aspectRatio - 0.5625| < 0.02 then 1 else 0)

/-- The additive score of `checkSocialMediaHint`, component sums in the
source's evaluation order. -/
def socialScore (f : ImageFile) (exifData : Option ExifData) (jpegQuality : Option Int) : Nat :=
  socialExifScore exifData +
  socialDimScore (max f.width f.height) +
  socialQualityScore (detectFileType f.bytes) jpegQuality +
  socialAspectScore ((f.width : ℚ) / (f.height : ℚ))

/-- The human-readable signal list of `checkSocialMediaHint`, appended in
the source's evaluation order. -/
def socialSignals (f : ImageFile) (exifData : Option ExifData)
    (jpegQuality : Option Int) : List String :=
  (if socialExifScore exifData = 2 then ["No EXIF metadata (stripped by most platforms)"] else []) ++
  ((dimensionSignal (max f.width f.height) SOCIAL_MEDIA_DIMENSIONS).elim [] (fun s => [s.1])) ++
  (match jpegQuality with
   | some q =>
     if detectFileType f.bytes = some "image/jpeg" ∧ q < 85 then
       ["JPEG quality ~" ++ toString q ++ "% (social platforms often recompress)"]
     else []
   | none => []) ++
  (if |(f.width : ℚ) / (f.height : ℚ) - 1| < 0.01 then
    ["Square aspect ratio (1:1) - common on Instagram"] else []) ++
  (if |(f.width : ℚ) / (f.height : ℚ) - 0.8| < 0.02 ∨
      |(f.width : ℚ) / (f.height : ℚ) - 1.25| < 0.02 then
    ["4:5 or 5:4 aspect ratio - common on Instagram"] else []) ++
  (if |(f.width : ℚ) / (f.height : ℚ) - 1.778| < 0.02 ∨
      |(f.width : ℚ) / (f.height : ℚ) - 0.5625| < 0.02 then
    ["16:9 aspect ratio - common for video thumbnails"] else [])

/-- `checkSocialMediaHint` (`socialMediaHint.ts`). -/
def checkSocialMediaHint (f : ImageFile) (exifData : Option ExifData)
    (jpegQuality : Option Int) : CheckResult :=
  let score := socialScore f exifData jpegQuality
  let signals := socialSignals f exifData jpegQuality
  { id := "social-media-hint"
    name := "Social Media Detection"
    status := if 4 ≤ score then .info else if 2 ≤ score then .info else .ok
    summary :=
      if 4 ≤ score then "Likely re-shared through social media"
      else if 2 ≤ score then "Some signs of possible social media sharing"
      else "No strong indicators of social media reupload"
    details :=
      [("Detection Score", .str (toString score ++ "/8")),
       ("Signals Found", .num signals.length)] ++
      (signals.enum.map (fun s => ("Signal " ++ toString (s.1 + 1), DetailVal.str s.2)))
    confidence := if 4 ≤ score then 0.7 else if 2 ≤ score then 0.5 else 0.4
    notes :=
      if 2 ≤ score then
        "This image shows characteristics commonly associated with social media reuploads. Social platforms typically strip metadata, resize images, and recompress them. This is informational only and does not indicate manipulation."
      else
        "No strong indicators that this image has been shared through social media. The metadata and dimensions do not match common social media patterns." }

/-- `runSocialMediaCheck` (`socialMediaHint.ts`). -/
def runSocialMediaCheck (f : ImageFile) (exifData : Option ExifData)
    (jpegQuality : Option Int) : List CheckResult :=
  [checkSocialMediaHint f exifData jpegQuality]

/-! ### `metadataChecks.ts`

The external EXIF extractor is the parameter `exif : Option ExifData`
(`extractExif` resolves to `null` on failure or absence). -/

/-- `EDITING_SOFTWARE` (`types.ts`). -/
def EDITING_SOFTWARE : List String :=
  ["photoshop", "adobe", "gimp", "snapseed", "lightroom", "capture one",
   "affinity", "pixelmator", "paint.net", "corel", "photoscape", "fotor",
   "picasa", "instagram", "vsco", "facetune", "meitu", "beautycam", "snow",
   "b612", "remini", "faceapp", "airbrush"]

/-- JavaScript string truthiness for an optional string tag. -/
def optTruthy (o : Option String) : Bool := o.elim false (fun s => !s.isEmpty)

/-- Substring containment (`String.prototype.includes` for a non-empty
pattern). -/
def strIncludes (s pat : String) : Bool := (s.splitOn pat).length > 1

/-- `formatExifDate` (`metadataChecks.ts`) on string dates: swap the two
colons of a leading `YYYY:MM:DD` for dashes. -/
def formatExifDate (date : String) : String :=
  let cs := date.toList
  if 10 ≤ cs.length ∧ (cs.take 4).all Char.isDigit ∧ cs.getD 4 ' ' = ':' ∧
      ((cs.drop 5).take 2).all Char.isDigit ∧ cs.getD 7 ' ' = ':' ∧
      ((cs.drop 8).take 2).all Char.isDigit then
    String.mk (cs.take 4 ++ ['-'] ++ (cs.drop 5).take 2 ++ ['-'] ++ cs.drop 8)
  else date

/-- `formatExposure` (`metadataChecks.ts`). -/
def formatExposure (time : ℚ) : String :=
  if 1 ≤ time then toString time ++ "s"
  else "1/" ++ toString (jsRound (1 / time)) ++ "s"

/-- `buildExifSummary` (`metadataChecks.ts`); a string date token is the
part before the first space with colons replaced by dashes. -/
def buildExifSummary (exif : ExifData) : String :=
  let dateToken := fun (d : String) => ((d.splitOn " ").getD 0 "").replace ":" "-"
  let parts : List String :=
    (match exif.make, exif.model with
     | some mk, some md => [mk ++ " " ++ md]
     | some mk, none => [mk]
     | none, some md => [md]
     | none, none => []) ++
    (match exif.dateTimeOriginal, exif.dateTime with
     | some d, _ => [dateToken d]
     | none, some d => [dateToken d]
     | none, none => [])
  if parts.length = 0 then "EXIF data present"
  else String.intercalate ", " parts

/-- `checkExifPresence` (`metadataChecks.ts`). -/
def checkExifPresence (exif : Option ExifData) : CheckResult :=
  match exif with
  | none =>
    { id := "exif-presence"
      name := "EXIF Metadata"
      status := .info
      summary := "No EXIF metadata found"
      details := [("EXIF Present", .str "No")]
      confidence := 0.8
      notes := "Missing EXIF is common after social media uploads, screenshots, or intentional stripping. This is not necessarily suspicious, but original camera photos typically contain EXIF data." }
  | some e =>
    if e.keyCount = 0 then
      { id := "exif-presence"
        name := "EXIF Metadata"
        status := .info
        summary := "No EXIF metadata found"
        details := [("EXIF Present", .str "No")]
        confidence := 0.8
        notes := "Missing EXIF is common after social media uploads, screenshots, or intentional stripping. This is not necessarily suspicious, but original camera photos typically contain EXIF data." }
    else
      { id := "exif-presence"
        name := "EXIF Metadata"
        status := .ok
        summary := buildExifSummary e
        details :=
          [("EXIF Present", .str "Yes")] ++
          (if optTruthy e.make then [("Camera Make", DetailVal.str (e.make.getD ""))] else []) ++
          (if optTruthy e.model then [("Camera Model", DetailVal.str (e.model.getD ""))] else []) ++
          (if optTruthy e.software then [("Software", DetailVal.str (e.software.getD ""))] else []) ++
          (if optTruthy e.dateTime then
            [("Date/Time", DetailVal.str (formatExifDate (e.dateTime.getD "")))] else []) ++
          (if optTruthy e.dateTimeOriginal then
            [("Original Date", DetailVal.str (formatExifDate (e.dateTimeOriginal.getD "")))] else []) ++
          (match e.exposureTime with
           | some t => if t ≠ 0 then [("Exposure", DetailVal.str (formatExposure t))] else []
           | none => []) ++
          (match e.fNumber with
           | some v => if v ≠ 0 then [("Aperture", DetailVal.str ("f/" ++ toString v))] else []
           | none => []) ++
          (match e.iso with
           | some v => if v ≠ 0 then [("ISO", DetailVal.num v)] else []
           | none => []) ++
          [("GPS Data", .str (if e.gpsLatitude.isSome ∧ e.gpsLongitude.isSome
            then "Present" else "None"))]
        confidence := 0.9
        notes := "EXIF data is present. This suggests the image may be closer to its original form, though EXIF can be modified or copied." }

/-- `checkEditingSoftware` (`metadataChecks.ts`). -/
def checkEditingSoftware (exif : Option ExifData) : CheckResult :=
  let noTag : CheckResult :=
    { id := "editing-software"
      name := "Editing Software Detection"
      status := .info
      summary := "No software tag in metadata"
      details := [("Software Tag", .str "Not present")]
      confidence := 0.6
      notes := "The absence of a software tag does not mean the image was not edited. Many tools do not add metadata, and metadata can be stripped." }
  match exif with
  | none => noTag
  | some e =>
    match e.software with
    | none => noTag
    | some sw =>
      if sw.isEmpty then noTag
      else
        let software := sw.toLower
        let matchedEditors := EDITING_SOFTWARE.filter (fun editor => strIncludes software editor)
        if matchedEditors.length > 0 then
          { id := "editing-software"
            name := "Editing Software Detection"
            status := .warn
            summary := "Editing software detected: " ++ sw
            details :=
              [("Software Tag", .str sw),
               ("Known Editors Found", .str (String.intercalate ", " matchedEditors))]
            confidence := 0.7
            notes := "The software tag indicates this image was processed by image editing software. This does not mean malicious editing occurred; many photographers use editing software for legitimate purposes like color correction or cropping." }
        else
          let isLikelyCamera :=
            ["camera", "dcim", "photo", "imaging"].any (fun kw => strIncludes software kw)
          { id := "editing-software"
            name := "Editing Software Detection"
            status := .ok
            summary := "Software: " ++ sw
            details :=
              [("Software Tag", .str sw),
               ("Type", .str (if isLikelyCamera then "Camera/Device Software" else "Unknown Software"))]
            confidence := 0.7
            notes :=
              if isLikelyCamera then
                "The software tag appears to be from a camera or device, not a known image editor."
              else
                "The software tag is present but does not match known editing software. This could be camera software, an unknown editor, or other processing software." }

/-- `runMetadataChecks` (`metadataChecks.ts`). -/
def runMetadataChecks (exif : Option ExifData) : List CheckResult :=
  [checkExifPresence exif, checkEditingSoftware exif]

/-! ### `fileChecks.ts` -/

/-- `formatFileSize` (`utils.ts`). -/
def formatFileSize (bytes : Nat) : String :=
  if bytes < 1024 then toString bytes ++ " B"
  else if bytes < 1024 * 1024 then fmtFixed 1 ((bytes : ℚ) / 1024) ++ " KB"
  else fmtFixed 2 ((bytes : ℚ) / (1024 * 1024)) ++ " MB"

/-- `checkFileType` (`fileChecks.ts`). -/
def checkFileType (f : ImageFile) : CheckResult :=
  let detectedType := detectFileType f.bytes
  let declaredType := f.mimeType
  let extension := ((f.fileName.splitOn ".").getLast?).map String.toLower
  let extensionToMime : List (String × String) :=
    [("jpg", "image/jpeg"), ("jpeg", "image/jpeg"), ("png", "image/png"),
     ("gif", "image/gif"), ("webp", "image/webp")]
  let expectedFromExt := extension.bind (fun e => extensionToMime.lookup e)
  let details : List (String × DetailVal) :=
    [("Detected Type", .str (detectedType.getD "Unknown")),
     ("Declared Type", .str (if declaredType.isEmpty then "None" else declaredType)),
     ("Extension", .str (match extension with
       | some e => if e.isEmpty then "None" else e
       | none => "None")),
     ("Match", .str (if detectedType = some declaredType then "Yes" else "No"))]
  match detectedType with
  | none =>
    { id := "file-type"
      name := "File Type Detection"
      status := .warn
      summary := "Could not verify file type from magic bytes"
      details := details
      confidence := 0.5
      notes := "The file signature could not be recognized. This may indicate a corrupted or unusual file format." }
  | some dt =>
    if dt ≠ declaredType ∧ ¬declaredType.isEmpty then
      { id := "file-type"
        name := "File Type Detection"
        status := .warn
        summary := "File signature (" ++ dt ++ ") differs from declared type (" ++ declaredType ++ ")"
        details := details
        confidence := 0.95
        notes := "This mismatch could indicate the file was renamed or modified. Not necessarily suspicious, but worth noting." }
    else if expectedFromExt.isSome ∧ some dt ≠ expectedFromExt then
      { id := "file-type"
        name := "File Type Detection"
        status := .warn
        summary := "File extension (." ++ (extension.getD "") ++ ") does not match actual type (" ++ dt ++ ")"
        details := details
        confidence := 0.95
        notes := "The file extension may have been changed. The actual content appears to be a different format." }
    else
      { id := "file-type"
        name := "File Type Detection"
        status := .ok
        summary := "File type verified: " ++ dt
        details := details
        confidence := 0.95
        notes := "File signature matches the expected format." }

/-- `checkAlphaChannel` (`fileChecks.ts`): any alpha byte below 255. -/
def checkAlphaChannel (img : ImageData) : Bool :=
  (List.range (img.width * img.height)).any (fun i => img.data (i * 4 + 3) < 255)

/-- `checkFileProperties` (`fileChecks.ts`). -/
def checkFileProperties (f : ImageFile) : CheckResult :=
  let aspectRatio := fmtFixed 2 ((f.width : ℚ) / (f.height : ℚ))
  let hasAlpha := checkAlphaChannel f.imageData
  { id := "file-properties"
    name := "File Properties"
    status := .info
    summary := toString f.width ++ "x" ++ toString f.height ++ " px, " ++ formatFileSize f.fileSize
    details :=
      [("Width", .str (toString f.width ++ " px")),
       ("Height", .str (toString f.height ++ " px")),
       ("File Size", .str (formatFileSize f.fileSize)),
       ("Aspect Ratio", .str aspectRatio),
       ("Has Alpha", .str (if hasAlpha then "Yes" else "No")),
       ("Megapixels", .str (fmtFixed 2 (((f.width * f.height : Nat) : ℚ) / 1000000) ++ " MP"))]
    confidence := 1
    notes :=
      if f.width < 100 ∨ f.height < 100 then
        "Very small image dimensions. May be a thumbnail or icon."
      else if f.width > 8000 ∨ f.height > 8000 then "Very high resolution image."
      else "Standard image dimensions." }

/-- `checkAnimation` (`fileChecks.ts`): only for sniffed GIF or WebP;
omitted (`none`) for every other format. -/
def checkAnimation (f : ImageFile) : Option CheckResult :=
  let detectedType := detectFileType f.bytes
  let mk := fun (format : String) (isAnimated : Bool) =>
    if isAnimated then
      { id := "animation"
        name := "Animation Detection"
        status := CheckStatus.warn
        summary := "Animated " ++ format ++ " detected"
        details := [("Format", DetailVal.str format), ("Animated", DetailVal.str "Yes")]
        confidence := 0.9
        notes := "Animated images have limited forensic analysis support. Only the first frame is analyzed. Forensic checks may not reflect the full content." : CheckResult }
    else
      { id := "animation"
        name := "Animation Detection"
        status := CheckStatus.ok
        summary := "Static " ++ format ++ " image (not animated)"
        details := [("Format", DetailVal.str format), ("Animated", DetailVal.str "No")]
        confidence := 0.9
        notes := "Single-frame image detected." }
  if detectedType = some "image/gif" then some (mk "GIF" (isAnimatedGif f.bytes))
  else if detectedType = some "image/webp" then some (mk "WebP" (isAnimatedWebP f.bytes))
  else none

/-- `runFileChecks` (`fileChecks.ts`). -/
def runFileChecks (f : ImageFile) : List CheckResult :=
  [checkFileType f, checkFileProperties f] ++ (checkAnimation f).toList

/-! ### `pipeline.ts` -/

/-- The pipeline's extraction of the JPEG quality value for the social
heuristic: look up the `jpeg-quality` result and `parseInt` its truthy
`Quality Estimate` detail.  `parseInt('Unknown')` is `NaN`, which the
consumer treats exactly like `null` (both comparisons `NaN < 85` and
`NaN < 70` are false), so it is folded to `none`. -/
def jpegQualityFromResults (compressionResults : List CheckResult) : Option Int :=
  match compressionResults.find? (fun r => r.id == "jpeg-quality") with
  | none => none
  | some r =>
    match r.details.lookup "Quality Estimate" with
    | some (.str s) => if ¬s.isEmpty then jsParseIntOpt s else none
    | _ => none

/-- The status counts of a check list (`summary` in
`runForensicPipeline`). -/
def summarize (allChecks : List CheckResult) : ReportSummary :=
  { okCount := (allChecks.filter (fun c => c.status == CheckStatus.ok)).length
    warnCount := (allChecks.filter (fun c => c.status == CheckStatus.warn)).length
    failCount := (allChecks.filter (fun c => c.status == CheckStatus.fail)).length
    infoCount := (allChecks.filter (fun c => c.status == CheckStatus.info)).length }

/-- The spec's verdict function of the counts (§4.8): `failCount > 0 ∨
warnCount ≥ 3 ⇒ suspicious`, else `warnCount > 0 ⇒ review`, else
`clean`. -/
def verdictOfCounts (s : ReportSummary) : Verdict :=
  if 0 < s.failCount ∨ 3 ≤ s.warnCount then .suspicious
  else if 0 < s.warnCount then .review
  else .clean

/-- `runForensicPipeline` (`pipeline.ts`).  External collaborators are
parameters: `exif` is the metadata extractor's outcome, `reenc` the ELA
re-encode round trip, `timestamp` the clock reading
(`new Date().toISOString()`); overlays use the source colour map
`grayscaleToHeatmap`. -/
def runForensicPipeline (msqrt : ℚ → ℚ) (exif : Option ExifData)
    (reenc : Except String ImageData) (timestamp : String) (f : ImageFile)
    (deepCloneScan : Bool) : ForensicReport :=
  let fileResults := runFileChecks f
  let metadataResults := runMetadataChecks exif
  let compressionResults := runCompressionChecks msqrt f
  let jpegQuality := jpegQualityFromResults compressionResults
  let pixelResults := runPixelChecks msqrt grayscaleToHeatmap f deepCloneScan
  let elaResults := runELACheck msqrt grayscaleToHeatmap reenc f
  let socialResults := runSocialMediaCheck f exif jpegQuality
  let allChecks := fileResults ++ metadataResults ++ compressionResults ++
    pixelResults ++ elaResults ++ socialResults
  let summary := summarize allChecks
  let overallStatus : Verdict :=
    if 0 < summary.failCount ∨ 3 ≤ summary.warnCount then .suspicious
    else if 0 < summary.warnCount then .review
    else .clean
  { filename := f.fileName
    fileSize := f.fileSize
    width := f.width
    height := f.height
    mimeType := if ¬f.mimeType.isEmpty then f.mimeType
      else (detectFileType f.bytes).getD "unknown"
    timestamp := timestamp
    checks := allChecks
    overallStatus := overallStatus
    summary := summary }

/-! ### Concrete inputs for witnesses and counterexamples -/

/-- A 1x1 PNG input (full 8-byte signature, opaque black pixel). -/
def pngPixel : ImageFile :=
  { fileName := "a.png"
    mimeType := "image/png"
    fileSize := 8
    width := 1
    height := 1
    imageData := ⟨1, 1, fun j => if j % 4 = 3 then 255 else 0⟩
    bytes := [0x89, 0x50, 0x4E, 0x47, 0x0D, 0x0A, 0x1A, 0x0A] }

/-- A 1x1 JPEG input (signature prefix only). -/
def jpegPixel : ImageFile :=
  { fileName := "a.jpg"
    mimeType := "image/jpeg"
    fileSize := 3
    width := 1
    height := 1
    imageData := ⟨1, 1, fun j => if j % 4 = 3 then 255 else 0⟩
    bytes := [0xFF, 0xD8, 0xFF] }

/-- A 16x16 all-black PNG input: too small for the 2x2-block minimum of
the uniform-area analysis. -/
def tinyGray16 : ImageFile :=
  { fileName := "tiny.png"
    mimeType := "image/png"
    fileSize := 100
    width := 16
    height := 16
    imageData := ⟨16, 16, fun j => if j % 4 = 3 then 255 else 0⟩
    bytes := [0x89, 0x50, 0x4E, 0x47, 0x0D, 0x0A, 0x1A, 0x0A] }

/-- A 1080x1080 JPEG input matching the Instagram dimension entry. -/
def igSquare : ImageFile :=
  { fileName := "ig.jpg"
    mimeType := "image/jpeg"
    fileSize := 1000
    width := 1080
    height := 1080
    imageData := ⟨1080, 1080, fun j => if j % 4 = 3 then 255 else 0⟩
    bytes := [0xFF, 0xD8, 0xFF] }

/-- A 500x300 PNG input matching no social-media signal. -/
def plainImage : ImageFile :=
  { fileName := "plain.png"
    mimeType := "image/png"
    fileSize := 1000
    width := 500
    height := 300
    imageData := ⟨500, 300, fun j => if j % 4 = 3 then 255 else 0⟩
    bytes := [0x89, 0x50, 0x4E, 0x47, 0x0D, 0x0A, 0x1A, 0x0A] }

/-! ## Theorems -/

/-- `dqtStep` succeeds exactly on a spec-side DQT hit, and then returns
the clamped piecewise quality of the DC coefficient. -/
theorem dqtStep_eq_some_iff (bs : List Nat) (i : Nat) (q : Int) :
    dqtStep bs i = some q ↔
      (bs[i]? = some 0xFF ∧ bs[i + 1]? = some 0xDB ∧
        67 ≤ (((bs.getD (i + 2) 0) <<< 8) ||| bs.getD (i + 3) 0) ∧
        ∃ q0, bs[i + 5]? = some q0 ∧ q0 ≠ 0 ∧
          q = max 1 (min 100 (specQualityOfDC q0))) := by
  unfold dqtStep
  cases hq0 : bs[i + 5]? with
  | none =>
    simp only [hq0, Option.none_bind, ite_self]
    constructor
    · intro h
      exact Option.noConfusion h
    · rintro ⟨-, -, -, q0, hq0', -⟩
      exact Option.noConfusion hq0'
  | some q0 =>
    simp only [hq0, Option.some_bind]
    constructor
    · intro h
      by_cases hAB : (byteIs bs i 0xFF && byteIs bs (i + 1) 0xDB) = true
      · rw [if_pos hAB] at h
        simp only [byteIs, Bool.and_eq_true, beq_iff_eq] at hAB
        by_cases hlen : 67 ≤ (((bs.getD (i + 2) 0) <<< 8) ||| bs.getD (i + 3) 0)
        · rw [if_pos hlen] at h
          by_cases hz : q0 = 0
          · rw [if_pos hz] at h
            exact Option.noConfusion h
          · rw [if_neg hz] at h
            exact ⟨hAB.1, hAB.2, hlen, q0, rfl, hz, (Option.some.inj h).symm⟩
        · rw [if_neg hlen] at h
          exact Option.noConfusion h
      · rw [if_neg hAB] at h
        exact Option.noConfusion h
    · rintro ⟨h1, h2, hlen, q1, hq1, hz, hq⟩
      cases Option.some.inj hq1
      have hAB : (byteIs bs i 0xFF && byteIs bs (i + 1) 0xDB) = true := by
        simp [byteIs, h1, h2]
      rw [if_pos hAB, if_pos hlen, if_neg hz]
      exact congrArg some hq.symm

/-- C4: when the byte scan (offsets `0 ≤ i < length − 70`) finds a DQT
marker with segment length ≥ 67 and a non-zero DC coefficient, the JPEG
quality estimate equals the spec's piecewise function of some such DC
coefficient clamped to `[1, 100]`; every produced estimate lies in
`[1, 100]`; and when no such marker is found, no estimate is produced. -/
theorem estimateJpegQuality_spec (bs : List Nat) :
    ((∃ i < bs.length - 70, dqtFoundAt bs i) →
      ∃ i < bs.length - 70, ∃ q0, bs[i + 5]? = some q0 ∧ q0 ≠ 0 ∧
        estimateJpegQuality bs = some (max 1 (min 100 (specQualityOfDC q0)))) ∧
    (∀ q, estimateJpegQuality bs = some q → 1 ≤ q ∧ q ≤ 100) ∧
    ((¬ ∃ i < bs.length - 70, dqtFoundAt bs i) → estimateJpegQuality bs = none) := by
  refine ⟨?_, ?_, ?_⟩
  · rintro ⟨i, hi, h1, h2, h3, q0, hq0, hz⟩
    have hsome : dqtStep bs i = some (max 1 (min 100 (specQualityOfDC q0))) :=
      (dqtStep_eq_some_iff bs i _).2 ⟨h1, h2, h3, q0, hq0, hz, rfl⟩
    have hne : estimateJpegQuality bs ≠ none := by
      intro hnone
      have := (List.findSome?_eq_none_iff.1 hnone) i (List.mem_range.2 hi)
      rw [this] at hsome
      exact Option.noConfusion hsome
    obtain ⟨q, hq⟩ := Option.ne_none_iff_exists'.1 hne
    obtain ⟨a, ha, hfa⟩ := List.exists_of_findSome?_eq_some hq
    obtain ⟨-, -, -, q1, hq1, hz1, hq'⟩ := (dqtStep_eq_some_iff bs a q).1 hfa
    exact ⟨a, List.mem_range.1 ha, q1, hq1, hz1, by rw [hq, hq']⟩
  · intro q hq
    obtain ⟨a, -, hfa⟩ := List.exists_of_findSome?_eq_some hq
    obtain ⟨-, -, -, q1, -, -, hq'⟩ := (dqtStep_eq_some_iff bs a q).1 hfa
    subst hq'
    omega
  · intro hnone
    apply List.findSome?_eq_none_iff.2
    intro i hi
    cases hstep : dqtStep bs i with
    | none => rfl
    | some q =>
      obtain ⟨h1, h2, h3, q0, hq0, hz, -⟩ := (dqtStep_eq_some_iff bs i q).1 hstep
      exact absurd ⟨i, List.mem_range.1 hi, h1, h2, h3, q0, hq0, hz⟩ hnone

/-- Witness for `estimateJpegQuality_spec` at `dqtSampleBuffer`: the
estimate is `round(5000/16) = 313` clamped to `100`. -/
theorem estimateJpegQuality_spec_witness :
    estimateJpegQuality dqtSampleBuffer = some 100 ∧
    (∃ i < dqtSampleBuffer.length - 70, ∃ q0, dqtSampleBuffer[i + 5]? = some q0 ∧ q0 ≠ 0 ∧
      estimateJpegQuality dqtSampleBuffer = some (max 1 (min 100 (specQualityOfDC q0)))) ∧
    (1 ≤ (100 : Int) ∧ (100 : Int) ≤ 100) := by
  have hq : specQualityOfDC 16 = 313 := by
    unfold specQualityOfDC jsRound
    norm_num
  have hstep : dqtStep dqtSampleBuffer 0 = some 100 := by
    rw [dqtStep_eq_some_iff]
    refine ⟨by decide, by decide, by decide, 16, by decide, by decide, ?_⟩
    rw [hq]
    decide
  have hest : estimateJpegQuality dqtSampleBuffer = some 100 := by
    unfold estimateJpegQuality
    rw [show dqtSampleBuffer.length - 70 = 1 by decide, show List.range 1 = [0] by decide]
    simp [List.findSome?, hstep]
  refine ⟨hest, ?_, (estimateJpegQuality_spec dqtSampleBuffer).2.1 100 hest⟩
  exact (estimateJpegQuality_spec dqtSampleBuffer).1
    ⟨0, by decide, by decide, by decide, by decide, 16, by decide, by decide⟩

/-- The first signature byte pins the first buffer byte. -/
theorem byte0_of_sig (bs : List Nat) (v : Nat) (rest : List Nat)
    (h : sigMatchesAt bs (v :: rest) 0 = true) : bs[0]? = some v := by
  simp [sigMatchesAt, byteIs] at h
  exact h.1

/-- A signature whose first byte differs from the buffer's first byte does
not match. -/
theorem sig_false_of_byte0 (bs : List Nat) (v w : Nat) (rest : List Nat)
    (h : bs[0]? = some v) (hvw : v ≠ w) :
    sigMatchesAt bs (w :: rest) 0 = false := by
  simp [sigMatchesAt, byteIs, h, hvw]

/-- A buffer matching the full 8-byte PNG signature matches its first four
bytes. -/
theorem pngSig4_of_pngSig8 (bs : List Nat) (h : sigMatchesAt bs pngSig8 0 = true) :
    sigMatchesAt bs pngSig4 0 = true := by
  simp [sigMatchesAt, pngSig8, pngSig4] at h ⊢
  exact ⟨h.1, h.2.1, h.2.2.1, h.2.2.2.1⟩

/-- `detectFileType` rephrased through the signature-matching predicate. -/
theorem detectFileType_eq_sig (bs : List Nat) : detectFileType bs =
    (if sigMatchesAt bs jpegSig 0 then some "image/jpeg"
     else if sigMatchesAt bs pngSig4 0 then some "image/png"
     else if sigMatchesAt bs gifSig 0 then some "image/gif"
     else if sigMatchesAt bs riffSig 0 then
       (if sigMatchesAt bs webpTag 8 then some "image/webp" else none)
     else none) := by
  simp only [detectFileType, sigMatchesAt, jpegSig, pngSig4, gifSig, riffSig, webpTag,
    Bool.and_true, Bool.and_assoc, Nat.reduceAdd]

/-- C3 (amended): the sniffer is total and deterministic over the
signature table, with PNG matched on the first four signature bytes: a
buffer whose prefix matches the JPEG signature, the 8-byte PNG signature
(or already its first four bytes `89 50 4E 47`), the GIF signature, or the
WebP signature (`RIFF` prefix with `WEBP` at offset 8) yields that mime
type, and a buffer matching none of the JPEG/GIF/WebP signatures nor the
4-byte PNG prefix yields no-match (not an error). -/
theorem detectFileType_signature_cases (bs : List Nat) :
    (sigMatchesAt bs jpegSig 0 = true → detectFileType bs = some "image/jpeg") ∧
    (sigMatchesAt bs pngSig8 0 = true → detectFileType bs = some "image/png") ∧
    (sigMatchesAt bs pngSig4 0 = true → detectFileType bs = some "image/png") ∧
    (sigMatchesAt bs gifSig 0 = true → detectFileType bs = some "image/gif") ∧
    (sigMatchesAt bs riffSig 0 = true → sigMatchesAt bs webpTag 8 = true →
      detectFileType bs = some "image/webp") ∧
    (sigMatchesAt bs jpegSig 0 = false → sigMatchesAt bs pngSig4 0 = false →
      sigMatchesAt bs gifSig 0 = false →
      (sigMatchesAt bs riffSig 0 = false ∨ sigMatchesAt bs webpTag 8 = false) →
      detectFileType bs = none) := by
  have png4 : sigMatchesAt bs pngSig4 0 = true → detectFileType bs = some "image/png" := by
    intro h
    have h0 : bs[0]? = some 0x89 := byte0_of_sig bs 0x89 [0x50, 0x4E, 0x47] h
    have hj : sigMatchesAt bs jpegSig 0 = false :=
      sig_false_of_byte0 bs 0x89 0xFF [0xD8, 0xFF] h0 (by decide)
    rw [detectFileType_eq_sig, hj, h]
    simp
  refine ⟨?_, ?_, png4, ?_, ?_, ?_⟩
  · intro h
    rw [detectFileType_eq_sig, h]
    simp
  · intro h
    exact png4 (pngSig4_of_pngSig8 bs h)
  · intro h
    have h0 : bs[0]? = some 0x47 := byte0_of_sig bs 0x47 [0x49, 0x46, 0x38] h
    have hj : sigMatchesAt bs jpegSig 0 = false :=
      sig_false_of_byte0 bs 0x47 0xFF [0xD8, 0xFF] h0 (by decide)
    have hp : sigMatchesAt bs pngSig4 0 = false :=
      sig_false_of_byte0 bs 0x47 0x89 [0x50, 0x4E, 0x47] h0 (by decide)
    rw [detectFileType_eq_sig, hj, hp, h]
    simp
  · intro h h8
    have h0 : bs[0]? = some 0x52 := byte0_of_sig bs 0x52 [0x49, 0x46, 0x46] h
    have hj : sigMatchesAt bs jpegSig 0 = false :=
      sig_false_of_byte0 bs 0x52 0xFF [0xD8, 0xFF] h0 (by decide)
    have hp : sigMatchesAt bs pngSig4 0 = false :=
      sig_false_of_byte0 bs 0x52 0x89 [0x50, 0x4E, 0x47] h0 (by decide)
    have hg : sigMatchesAt bs gifSig 0 = false :=
      sig_false_of_byte0 bs 0x52 0x47 [0x49, 0x46, 0x38] h0 (by decide)
    rw [detectFileType_eq_sig, hj, hp, hg, h, h8]
    simp
  · intro hj hp hg hw
    rw [detectFileType_eq_sig, hj, hp, hg]
    rcases hw with hr | h8
    · rw [hr]
      simp
    · cases hr : sigMatchesAt bs riffSig 0 <;> simp [h8]

/-- Witness for `detectFileType_signature_cases`: each case applied at a
concrete buffer. -/
theorem detectFileType_signature_cases_witness :
    (sigMatchesAt [0xFF, 0xD8, 0xFF] jpegSig 0 = true ∧
      detectFileType [0xFF, 0xD8, 0xFF] = some "image/jpeg") ∧
    (sigMatchesAt [0x89, 0x50, 0x4E, 0x47, 0x0D, 0x0A, 0x1A, 0x0A] pngSig8 0 = true ∧
      detectFileType [0x89, 0x50, 0x4E, 0x47, 0x0D, 0x0A, 0x1A, 0x0A] = some "image/png") ∧
    (sigMatchesAt [0x47, 0x49, 0x46, 0x38] gifSig 0 = true ∧
      detectFileType [0x47, 0x49, 0x46, 0x38] = some "image/gif") ∧
    (sigMatchesAt [0x52, 0x49, 0x46, 0x46, 1, 2, 3, 4, 0x57, 0x45, 0x42, 0x50] riffSig 0 = true ∧
      detectFileType [0x52, 0x49, 0x46, 0x46, 1, 2, 3, 4, 0x57, 0x45, 0x42, 0x50] =
        some "image/webp") ∧
    detectFileType [9, 9, 9] = none :=
  ⟨⟨by decide, (detectFileType_signature_cases _).1 (by decide)⟩,
   ⟨by decide, (detectFileType_signature_cases _).2.1 (by decide)⟩,
   ⟨by decide, (detectFileType_signature_cases _).2.2.2.1 (by decide)⟩,
   ⟨by decide, (detectFileType_signature_cases _).2.2.2.2.1 (by decide) (by decide)⟩,
   (detectFileType_signature_cases _).2.2.2.2.2 (by decide) (by decide) (by decide)
     (Or.inl (by decide))⟩

/-- C3 counterexample: the buffer `89 50 4E 47 00 00 00 00 00 00 00 00`
(length 12) matches none of the four signatures of the spec's table — in
particular not the full 8-byte PNG signature — yet the sniffer reports
`image/png` instead of no-match, because the code compares only the first
four PNG signature bytes. -/
theorem detectFileType_counterexample :
    12 ≤ ([0x89, 0x50, 0x4E, 0x47, 0, 0, 0, 0, 0, 0, 0, 0] : List Nat).length ∧
    sigMatchesAt [0x89, 0x50, 0x4E, 0x47, 0, 0, 0, 0, 0, 0, 0, 0] jpegSig 0 = false ∧
    sigMatchesAt [0x89, 0x50, 0x4E, 0x47, 0, 0, 0, 0, 0, 0, 0, 0] pngSig8 0 = false ∧
    sigMatchesAt [0x89, 0x50, 0x4E, 0x47, 0, 0, 0, 0, 0, 0, 0, 0] gifSig 0 = false ∧
    (sigMatchesAt [0x89, 0x50, 0x4E, 0x47, 0, 0, 0, 0, 0, 0, 0, 0] riffSig 0 = false ∨
      sigMatchesAt [0x89, 0x50, 0x4E, 0x47, 0, 0, 0, 0, 0, 0, 0, 0] webpTag 8 = false) ∧
    detectFileType [0x89, 0x50, 0x4E, 0x47, 0, 0, 0, 0, 0, 0, 0, 0] = some "image/png" := by
  refine ⟨by decide, by decide, by decide, by decide, Or.inl (by decide), by decide⟩

/-- C5 (amended): the uniform-area check partitions the image into 16x16
blocks, takes the ratio of blocks with luminance standard deviation below
3 to the total block count (`analyzeUniformity`), and returns status
`warn` when that ratio exceeds 0.3 and `info` otherwise — including when
the ratio is at most 0.1: the source initializes the status to `info` and
only the warn branch overwrites it, so `ok` is never returned. -/
theorem checkUniformAreas_status (msqrt : ℚ → ℚ) (f : ImageFile) :
    (checkUniformAreas msqrt f).status =
      (if (analyzeUniformity msqrt f.imageData).uniformRatio > 0.3 then .warn else .info) ∧
    (checkUniformAreas msqrt f).status ≠ .ok := by
  have h : (checkUniformAreas msqrt f).status =
      (if (analyzeUniformity msqrt f.imageData).uniformRatio > 0.3 then CheckStatus.warn
       else .info) := rfl
  refine ⟨h, ?_⟩
  rw [h]
  split <;> simp

/-- C5 counterexample: a 16x16 image fits fewer than 2x2 analysis blocks,
so its uniform ratio is 0 — not above 0.1, where the claim predicts status
`ok` — yet the check reports `info`. -/
theorem checkUniformAreas_counterexample :
    (analyzeUniformity ratSqrt tinyGray16.imageData).uniformRatio = 0 ∧
    ¬ (analyzeUniformity ratSqrt tinyGray16.imageData).uniformRatio > 1 / 10 ∧
    (checkUniformAreas ratSqrt tinyGray16).status = .info ∧
    (checkUniformAreas ratSqrt tinyGray16).status ≠ .ok := by
  have ha : analyzeUniformity ratSqrt tinyGray16.imageData = ⟨0, []⟩ := by
    unfold analyzeUniformity
    norm_num [tinyGray16]
  have hs : (checkUniformAreas ratSqrt tinyGray16).status =
      (if (analyzeUniformity ratSqrt tinyGray16.imageData).uniformRatio > 0.3 then
        CheckStatus.warn else .info) := rfl
  refine ⟨by rw [ha], by rw [ha]; norm_num, ?_, ?_⟩
  · rw [hs, ha]
    norm_num
  · rw [hs, ha]
    norm_num
    decide

/-- C6: the edge-inconsistency check computes Sobel gradient magnitudes,
takes mean and standard deviation over the strictly-positive magnitudes
only, counts pixels above `mean + 3 * stddev` and divides by the pixel
count (`strongEdgeRatio`); the status is `info` when that share exceeds
0.02 and `ok` otherwise, and is never `warn` or `fail` for any input. -/
theorem checkEdgeInconsistency_spec (msqrt : ℚ → ℚ) (hm : HeatmapFn) (f : ImageFile) :
    (checkEdgeInconsistency msqrt hm f).status =
      (if strongEdgeRatio msqrt f > 0.02 then .info else .ok) ∧
    (checkEdgeInconsistency msqrt hm f).status ≠ .warn ∧
    (checkEdgeInconsistency msqrt hm f).status ≠ .fail := by
  have h : (checkEdgeInconsistency msqrt hm f).status =
      (if strongEdgeRatio msqrt f > 0.02 then CheckStatus.info else .ok) := rfl
  refine ⟨h, ?_, ?_⟩ <;> rw [h] <;> split <;> simp

/-- C9: replacing the overlay colour-mapping function by any other one
leaves status, summary and details of the noise-consistency and
edge-inconsistency checks unchanged (only the overlay may differ). -/
theorem pixelChecks_colormap_noninterference (msqrt : ℚ → ℚ) (hm1 hm2 : HeatmapFn)
    (f : ImageFile) :
    ((checkNoiseConsistency msqrt hm1 f).status = (checkNoiseConsistency msqrt hm2 f).status ∧
     (checkNoiseConsistency msqrt hm1 f).summary = (checkNoiseConsistency msqrt hm2 f).summary ∧
     (checkNoiseConsistency msqrt hm1 f).details = (checkNoiseConsistency msqrt hm2 f).details) ∧
    ((checkEdgeInconsistency msqrt hm1 f).status = (checkEdgeInconsistency msqrt hm2 f).status ∧
     (checkEdgeInconsistency msqrt hm1 f).summary = (checkEdgeInconsistency msqrt hm2 f).summary ∧
     (checkEdgeInconsistency msqrt hm1 f).details = (checkEdgeInconsistency msqrt hm2 f).details) := by
  refine ⟨⟨?_, ?_, ?_⟩, rfl, rfl, rfl⟩ <;>
    · unfold checkNoiseConsistency
      split <;> rfl

/-- C10: the pixel-check stage always returns exactly one result carrying
the id `clone-detection` (the too-small skip result carries it as well),
so the deep-rescan entry point's lookup of that id always succeeds. -/
theorem runPixelChecks_clone_unique (msqrt : ℚ → ℚ) (hm : HeatmapFn) (f : ImageFile)
    (deep : Bool) :
    ((runPixelChecks msqrt hm f deep).filter (fun c => c.id == "clone-detection")).length = 1 ∧
    runDeepCloneScan msqrt hm f = some (checkCloneDetection msqrt f true) := by
  have hn : (checkNoiseConsistency msqrt hm f).id = "noise-consistency" := by
    unfold checkNoiseConsistency
    split <;> rfl
  have he : (checkEdgeInconsistency msqrt hm f).id = "edge-consistency" := rfl
  have hc : ∀ d : Bool, (checkCloneDetection msqrt f d).id = "clone-detection" := by
    intro d
    unfold checkCloneDetection
    split <;> split <;> rfl
  constructor
  · simp [runPixelChecks, hn, he, hc deep]
  · simp [runDeepCloneScan, runPixelChecks, List.find?, hn, he, hc true]

/-- C7: the error-level analysis never aborts: a non-JPEG input gets a
fixed informational not-applicable result independent of the re-encode
outcome (so no re-encode computation can influence it), and a JPEG input
whose re-encode round trip fails gets a confidence-0.1 info result
carrying the error description instead of a propagated failure. -/
theorem performELA_error_handling (msqrt : ℚ → ℚ) (hm : HeatmapFn)
    (reenc reenc' : Except String ImageData) (f : ImageFile) (msg : String) :
    (detectFileType f.bytes ≠ some "image/jpeg" →
      performELA msqrt hm reenc f = performELA msqrt hm reenc' f ∧
      (performELA msqrt hm reenc f).status = .info ∧
      (performELA msqrt hm reenc f).summary = "ELA not applicable (non-JPEG)" ∧
      (performELA msqrt hm reenc f).confidence = 0.3 ∧
      (performELA msqrt hm reenc f).overlay = none) ∧
    (detectFileType f.bytes = some "image/jpeg" →
      (performELA msqrt hm (.error msg) f).status = .info ∧
      (performELA msqrt hm (.error msg) f).summary = "ELA analysis failed" ∧
      (performELA msqrt hm (.error msg) f).confidence = 0.1 ∧
      (performELA msqrt hm (.error msg) f).details = [("Error", .str msg)] ∧
      (performELA msqrt hm (.error msg) f).overlay = none) := by
  constructor
  · intro h
    simp [performELA, h]
  · intro h
    simp [performELA, h]

/-- Witness for `performELA_error_handling`: a 1x1 PNG input with both a
failing and a succeeding re-encode outcome, and a 1x1 JPEG input with a
failing re-encode. -/
theorem performELA_error_handling_witness :
    (performELA ratSqrt grayscaleToHeatmap (.error "fail A") pngPixel =
      performELA ratSqrt grayscaleToHeatmap (.ok pngPixel.imageData) pngPixel ∧
     (performELA ratSqrt grayscaleToHeatmap (.error "fail A") pngPixel).status = .info ∧
     (performELA ratSqrt grayscaleToHeatmap (.error "fail A") pngPixel).summary =
       "ELA not applicable (non-JPEG)" ∧
     (performELA ratSqrt grayscaleToHeatmap (.error "fail A") pngPixel).confidence = 0.3 ∧
     (performELA ratSqrt grayscaleToHeatmap (.error "fail A") pngPixel).overlay = none) ∧
    ((performELA ratSqrt grayscaleToHeatmap (.error "encode failed") jpegPixel).status = .info ∧
     (performELA ratSqrt grayscaleToHeatmap (.error "encode failed") jpegPixel).summary =
       "ELA analysis failed" ∧
     (performELA ratSqrt grayscaleToHeatmap (.error "encode failed") jpegPixel).confidence = 0.1 ∧
     (performELA ratSqrt grayscaleToHeatmap (.error "encode failed") jpegPixel).details =
       [("Error", .str "encode failed")] ∧
     (performELA ratSqrt grayscaleToHeatmap (.error "encode failed") jpegPixel).overlay = none) :=
  ⟨(performELA_error_handling ratSqrt grayscaleToHeatmap (.error "fail A")
      (.ok pngPixel.imageData) pngPixel "fail A").1 (by decide),
   (performELA_error_handling ratSqrt grayscaleToHeatmap (.error "encode failed")
      (.error "encode failed") jpegPixel "encode failed").2 (by decide)⟩

/-- The three aspect-ratio tolerance bands of `checkSocialMediaHint` are
pairwise disjoint, so at most one of the three aspect signals fires. -/
theorem socialAspectScore_le_one (ar : ℚ) : socialAspectScore ar ≤ 1 := by
  have h1 : |ar - 1| < 0.01 → ¬(|ar - 0.8| < 0.02 ∨ |ar - 1.25| < 0.02) := by
    intro h hc
    rw [abs_lt] at h
    rcases hc with hc | hc <;> rw [abs_lt] at hc
    · linarith [h.1, hc.2]
    · linarith [h.2, hc.1]
  have h2 : |ar - 1| < 0.01 → ¬(|ar - 1.778| < 0.02 ∨ |ar - 0.5625| < 0.02) := by
    intro h hc
    rw [abs_lt] at h
    rcases hc with hc | hc <;> rw [abs_lt] at hc
    · linarith [h.2, hc.1]
    · linarith [h.1, hc.2]
  have h3 : (|ar - 0.8| < 0.02 ∨ |ar - 1.25| < 0.02) →
      ¬(|ar - 1.778| < 0.02 ∨ |ar - 0.5625| < 0.02) := by
    intro h hc
    rcases h with h | h <;> rw [abs_lt] at h <;> rcases hc with hc | hc <;> rw [abs_lt] at hc
    · linarith [h.2, hc.1]
    · linarith [h.1, hc.2]
    · linarith [h.2, hc.1]
    · linarith [h.1, hc.2]
  unfold socialAspectScore
  by_cases c1 : |ar - 1| < 0.01 <;> by_cases c2 : |ar - 0.8| < 0.02 ∨ |ar - 1.25| < 0.02 <;>
    by_cases c3 : |ar - 1.778| < 0.02 ∨ |ar - 0.5625| < 0.02
  · exact absurd c2 (h1 c1)
  · exact absurd c2 (h1 c1)
  · exact absurd c3 (h2 c1)
  · simp [c1, c2, c3]
  · exact absurd c3 (h3 c2)
  · simp [c1, c2, c3]
  · simp [c1, c2, c3]
  · simp [c1, c2, c3]

/-- The EXIF signal contributes at most 2 points. -/
theorem socialExifScore_le (e : Option ExifData) : socialExifScore e ≤ 2 := by
  cases e with
  | none => simp [socialExifScore]
  | some e =>
    simp only [socialExifScore]
    split <;> omega

/-- The first-match dimension signal contributes at most 2 points. -/
theorem dimensionSignal_snd_le (maxDim : Nat) (l : List DimPattern) :
    (dimensionSignal maxDim l).elim 0 Prod.snd ≤ 2 := by
  induction l with
  | nil => simp [dimensionSignal]
  | cons p ps ih =>
    unfold dimensionSignal
    split_ifs <;> simp_all [Option.elim]

/-- The JPEG-quality signal contributes at most 2 points. -/
theorem socialQualityScore_le (ft : Option String) (jq : Option Int) :
    socialQualityScore ft jq ≤ 2 := by
  cases jq with
  | none => simp [socialQualityScore]
  | some q =>
    simp only [socialQualityScore]
    split_ifs <;> omega

/-- C8: the social-reupload score never exceeds 8, and the emitted status,
summary and confidence are determined by the score thresholds: `≥ 4` gives
info / likely-reshared / 0.7, `≥ 2` gives info / some-signs / 0.5, else
ok / no-strong-indicators / 0.4. -/
theorem checkSocialMediaHint_spec (f : ImageFile) (exif : Option ExifData)
    (jq : Option Int) :
    socialScore f exif jq ≤ 8 ∧
    (4 ≤ socialScore f exif jq →
      (checkSocialMediaHint f exif jq).status = .info ∧
      (checkSocialMediaHint f exif jq).summary = "Likely re-shared through social media" ∧
      (checkSocialMediaHint f exif jq).confidence = 0.7) ∧
    (2 ≤ socialScore f exif jq → socialScore f exif jq < 4 →
      (checkSocialMediaHint f exif jq).status = .info ∧
      (checkSocialMediaHint f exif jq).summary = "Some signs of possible social media sharing" ∧
      (checkSocialMediaHint f exif jq).confidence = 0.5) ∧
    (socialScore f exif jq < 2 →
      (checkSocialMediaHint f exif jq).status = .ok ∧
      (checkSocialMediaHint f exif jq).summary = "No strong indicators of social media reupload" ∧
      (checkSocialMediaHint f exif jq).confidence = 0.4) := by
  refine ⟨?_, ?_, ?_, ?_⟩
  · have hA := socialExifScore_le exif
    have hB := dimensionSignal_snd_le (max f.width f.height) SOCIAL_MEDIA_DIMENSIONS
    have hC := socialQualityScore_le (detectFileType f.bytes) jq
    have hD := socialAspectScore_le_one ((f.width : ℚ) / (f.height : ℚ))
    unfold socialScore socialDimScore
    omega
  · intro h
    simp [checkSocialMediaHint, h]
  · intro h2 h4
    have hn4 : ¬ 4 ≤ socialScore f exif jq := by omega
    simp [checkSocialMediaHint, h2, hn4]
  · intro h
    have hn4 : ¬ 4 ≤ socialScore f exif jq := by omega
    have hn2 : ¬ 2 ≤ socialScore f exif jq := by omega
    simp [checkSocialMediaHint, hn2, hn4]

/-- Witness for `checkSocialMediaHint_spec`: a 1080x1080 JPEG with no
EXIF and quality 60 scores 7 (likely reshared); a 500x300 PNG with no
EXIF scores 2 (some signs); the same image with one EXIF tag scores 0 (no
strong indicators). -/
theorem checkSocialMediaHint_spec_witness :
    socialScore igSquare none (some 60) = 7 ∧
    ((checkSocialMediaHint igSquare none (some 60)).status = .info ∧
     (checkSocialMediaHint igSquare none (some 60)).summary =
       "Likely re-shared through social media" ∧
     (checkSocialMediaHint igSquare none (some 60)).confidence = 0.7) ∧
    socialScore plainImage none none = 2 ∧
    ((checkSocialMediaHint plainImage none none).status = .info ∧
     (checkSocialMediaHint plainImage none none).summary =
       "Some signs of possible social media sharing" ∧
     (checkSocialMediaHint plainImage none none).confidence = 0.5) ∧
    socialScore plainImage (some { make := some "Canon" }) none = 0 ∧
    ((checkSocialMediaHint plainImage (some { make := some "Canon" }) none).status = .ok ∧
     (checkSocialMediaHint plainImage (some { make := some "Canon" }) none).summary =
       "No strong indicators of social media reupload" ∧
     (checkSocialMediaHint plainImage (some { make := some "Canon" }) none).confidence = 0.4) := by
  have h1 : socialScore igSquare none (some 60) = 7 := by
    unfold socialScore
    norm_num [socialExifScore, socialDimScore, dimensionSignal, SOCIAL_MEDIA_DIMENSIONS,
      socialQualityScore, socialAspectScore, abs_lt, igSquare, detectFileType, byteIs]
  have h2 : socialScore plainImage none none = 2 := by
    unfold socialScore
    norm_num [socialExifScore, socialDimScore, dimensionSignal, SOCIAL_MEDIA_DIMENSIONS,
      socialQualityScore, socialAspectScore, abs_lt, plainImage, detectFileType, byteIs]
  have h3 : socialScore plainImage (some { make := some "Canon" }) none = 0 := by
    unfold socialScore
    norm_num [socialExifScore, ExifData.keyCount, socialDimScore, dimensionSignal,
      SOCIAL_MEDIA_DIMENSIONS, socialQualityScore, socialAspectScore, abs_lt, plainImage,
      detectFileType, byteIs]
  refine ⟨h1, (checkSocialMediaHint_spec igSquare none (some 60)).2.1 (by rw [h1]; norm_num),
    h2, (checkSocialMediaHint_spec plainImage none none).2.2.1 (by rw [h2]) (by rw [h2]; norm_num),
    h3, (checkSocialMediaHint_spec plainImage (some { make := some "Canon" }) none).2.2.2
      (by rw [h3]; norm_num)⟩

/-- C1: for every report the pipeline produces, the overall verdict is
the spec's pure function `verdictOfCounts` of the four status counts
(`failCount > 0 ∨ warnCount ≥ 3 ⇒ suspicious`, else `warnCount > 0 ⇒
review`, else `clean`), and two produced reports with identical counts
have identical verdicts whatever their other inputs. -/
theorem runForensicPipeline_verdict_pure (msqrt : ℚ → ℚ) (exif : Option ExifData)
    (reenc : Except String ImageData) (ts : String) (f : ImageFile) (deep : Bool)
    (msqrt' : ℚ → ℚ) (exif' : Option ExifData) (reenc' : Except String ImageData)
    (ts' : String) (f' : ImageFile) (deep' : Bool) :
    (runForensicPipeline msqrt exif reenc ts f deep).overallStatus =
      verdictOfCounts (runForensicPipeline msqrt exif reenc ts f deep).summary ∧
    ((runForensicPipeline msqrt exif reenc ts f deep).summary =
        (runForensicPipeline msqrt' exif' reenc' ts' f' deep').summary →
      (runForensicPipeline msqrt exif reenc ts f deep).overallStatus =
        (runForensicPipeline msqrt' exif' reenc' ts' f' deep').overallStatus) := by
  have h : ∀ (m : ℚ → ℚ) (e : Option ExifData) (r : Except String ImageData)
      (t : String) (g : ImageFile) (d : Bool),
      (runForensicPipeline m e r t g d).overallStatus =
        verdictOfCounts (runForensicPipeline m e r t g d).summary :=
    fun _ _ _ _ _ _ => rfl
  refine ⟨h msqrt exif reenc ts f deep, fun hsum => ?_⟩
  rw [h msqrt exif reenc ts f deep, h msqrt' exif' reenc' ts' f' deep', hsum]

/-- Witness for `runForensicPipeline_verdict_pure` at a concrete 1x1 PNG
run (both parameter lists instantiated identically, so the count equality
hypothesis holds by reflexivity). -/
theorem runForensicPipeline_verdict_pure_witness :
    (runForensicPipeline ratSqrt none (.error "e") "t" pngPixel false).overallStatus =
      verdictOfCounts (runForensicPipeline ratSqrt none (.error "e") "t" pngPixel false).summary ∧
    (runForensicPipeline ratSqrt none (.error "e") "t" pngPixel false).overallStatus =
      (runForensicPipeline ratSqrt none (.error "e") "t" pngPixel false).overallStatus :=
  ⟨(runForensicPipeline_verdict_pure ratSqrt none (.error "e") "t" pngPixel false
      ratSqrt none (.error "e") "t" pngPixel false).1,
   (runForensicPipeline_verdict_pure ratSqrt none (.error "e") "t" pngPixel false
      ratSqrt none (.error "e") "t" pngPixel false).2 rfl⟩

/-- Any list of check results is partitioned by the four statuses. -/
theorem status_counts_partition (l : List CheckResult) :
    (l.filter (fun c => c.status == CheckStatus.ok)).length +
    (l.filter (fun c => c.status == CheckStatus.warn)).length +
    (l.filter (fun c => c.status == CheckStatus.fail)).length +
    (l.filter (fun c => c.status == CheckStatus.info)).length = l.length := by
  induction l with
  | nil => rfl
  | cons c l ih =>
    cases h : c.status <;> simp [List.filter_cons, h] <;> omega

/-- C2: for every report the pipeline produces,
`okCount + warnCount + failCount + infoCount` equals the length of the
report's checks list. -/
theorem runForensicPipeline_counts_sum (msqrt : ℚ → ℚ) (exif : Option ExifData)
    (reenc : Except String ImageData) (ts : String) (f : ImageFile) (deep : Bool) :
    (runForensicPipeline msqrt exif reenc ts f deep).summary.okCount +
    (runForensicPipeline msqrt exif reenc ts f deep).summary.warnCount +
    (runForensicPipeline msqrt exif reenc ts f deep).summary.failCount +
    (runForensicPipeline msqrt exif reenc ts f deep).summary.infoCount =
    (runForensicPipeline msqrt exif reenc ts f deep).checks.length :=
  status_counts_partition (runForensicPipeline msqrt exif reenc ts f deep).checks

end Forensics
